import Mathlib

/-!
Verification of the content-optimiser repository core (content-type detection
and rule-based optimization pipeline) against its natural-language
specification.

The Python sources are shallowly embedded:

* strings are `List Char` (wrapped in `String` at the API boundary);
* Python dicts with heterogeneous values are `PyDict` (association lists of
  `PyVal`);
* the regular expressions that drive every pipeline stage are embedded via a
  small backtracking matcher (`RE`, `reM`) with Python `re` semantics
  (leftmost match, lazy and greedy quantifiers, MULTILINE / DOTALL /
  IGNORECASE flags, capture groups, backreferences, lookahead and single
  character negative lookbehind); each compiled pattern of the source is
  transcribed into an `RE` value;
* exceptions are `Except PyErr`; mutable helper statistics are threaded as
  explicit state.

Sections follow the source files: string utilities, the regex engine,
`optimization_rules.py`, `notion_helpers.py`, then each helper of
`content_helpers/` and the unified dispatcher, followed by the theorems.
-/

/-! ## Python string primitives -/

/-- The characters stripped by Python `str.strip()` and matched by `\s`
(ASCII range; the sources only process text). -/
def pyIsSpace (c : Char) : Bool :=
  c = ' ' || c = '\t' || c = '\n' || c = '\x0d' || c = '\x0b' || c = '\x0c'

/-- Python `str.lstrip()`. -/
def pyLStrip (s : List Char) : List Char := s.dropWhile pyIsSpace

/-- Python `str.strip()`. -/
def pyStrip (s : List Char) : List Char :=
  ((s.dropWhile pyIsSpace).reverse.dropWhile pyIsSpace).reverse

/-- Python `str.rstrip(c)` for a single character. -/
def pyRStripChar (c : Char) (s : List Char) : List Char :=
  (s.reverse.dropWhile (fun x => x = c)).reverse

/-- Python `str.lower()` (ASCII). -/
def pyLower (s : List Char) : List Char := s.map Char.toLower

/-- Python `str.split(sep)` for a one-character separator: keeps empty
fields, so `"a//b"` splits into three parts. -/
def pySplit (sep : Char) : List Char → List (List Char)
  | [] => [[]]
  | c :: rest =>
    let r := pySplit sep rest
    if c = sep then [] :: r
    else match r with
      | [] => [[c]]
      | h :: t => (c :: h) :: t

/-- Python `sep.join(parts)` for a one-character separator. -/
def pyJoin (sep : Char) : List (List Char) → List Char
  | [] => []
  | [p] => p
  | p :: rest => p ++ sep :: pyJoin sep rest

/-- Substring test (Python `needle in haystack`). -/
def containsSub (needle : List Char) : List Char → Bool
  | [] => needle.isEmpty
  | c :: rest => needle.isPrefixOf (c :: rest) || containsSub needle rest

/-- Python `str.endswith`. -/
def pyEndsWith (s suffix : List Char) : Bool := suffix.isSuffixOf s

/-- Python `str.startswith`. -/
def pyStartsWith (s pre : List Char) : Bool := pre.isPrefixOf s

/-- One step bound for Python `str.replace`: fuel is the length of the
remaining text, enough because each step consumes at least one character
(`old` is never empty at the call sites). -/
def pyReplaceAux (old new : List Char) : Nat → List Char → List Char
  | 0, s => s
  | fuel + 1, s =>
    match s with
    | [] => []
    | c :: rest =>
      if old.isPrefixOf s then new ++ pyReplaceAux old new fuel (s.drop old.length)
      else c :: pyReplaceAux old new fuel rest

/-- Python `str.replace(old, new)` (all non-overlapping occurrences, left to
right).  The sources never call it with an empty `old`; for `old = []` we
return the input unchanged. -/
def pyReplace (s old new : List Char) : List Char :=
  if old.isEmpty then s else pyReplaceAux old new s.length s

/-- Python `str.split(': ', 1)` specialised: split at the first occurrence
of a separator string, returning the two sides if it occurs. -/
def pySplitOnce (sep : List Char) : List Char → Option (List Char × List Char)
  | [] => if sep.isEmpty then some ([], []) else none
  | c :: rest =>
    if sep.isPrefixOf (c :: rest) then some ([], (c :: rest).drop sep.length)
    else match pySplitOnce sep rest with
      | some (l, r) => some (c :: l, r)
      | none => none

/-! ## Python values and dicts -/

/-- A Python runtime value as far as the embedded code needs them. -/
inductive PyVal where
  | int (n : Int)
  | str (s : String)
  | bool (b : Bool)
  | rat (q : ℚ)
  | dict (d : List (String × PyVal))
  | pynone
deriving Repr

/-- A Python dict with string keys (insertion ordered association list;
`pdSet` overwrites in place like a dict assignment). -/
abbrev PyDict := List (String × PyVal)

/-- Dict lookup (`d[k]` / `d.get(k)`). -/
def pdGet (d : PyDict) (k : String) : Option PyVal :=
  (d.find? (fun e => e.1 = k)).map (·.2)

/-- Dict assignment `d[k] = v`: overwrite the existing entry, else append. -/
def pdSet (d : PyDict) (k : String) (v : PyVal) : PyDict :=
  if (d.find? (fun e => e.1 = k)).isSome then
    d.map (fun e => if e.1 = k then (k, v) else e)
  else d ++ [(k, v)]

/-- Python `{**a, **b}` / `a.update(b)`: entries of `b` overwrite those of
`a`, new keys appended in order. -/
def pdUpdate (a b : PyDict) : PyDict := b.foldl (fun acc e => pdSet acc e.1 e.2) a

/-- Python `sum(d.values())`: succeeds on numeric values, raises `TypeError`
on strings, dicts or `None`.  Booleans count as 0/1, floats are summed
exactly; the embedded callers only ever sum integer counters. -/
def pdSumValues (d : PyDict) : Except String Int :=
  d.foldl
    (fun acc e =>
      match acc with
      | .error m => .error m
      | .ok n =>
        match e.2 with
        | .int m => .ok (n + m)
        | .bool b => .ok (n + if b then 1 else 0)
        | _ => .error "TypeError: unsupported operand type for +")
    (.ok 0)

/-! ## A small backtracking regex engine with Python `re` semantics -/

/-- Items of a character class `[...]`. -/
inductive CItem where
  | ch (c : Char)
  | range (lo hi : Char)
  | digit          -- \d
  | wordc          -- \w
  | space          -- \s
deriving Repr

/-- A one-character matcher: a literal, the dot, or a (possibly negated)
character class. -/
inductive CCl where
  | lit (c : Char)
  | dot
  | cls (neg : Bool) (items : List CItem)
deriving Repr

/-- Compilation flags of `re.compile`. -/
structure RFlags where
  ic : Bool := false   -- re.IGNORECASE
  ml : Bool := false   -- re.MULTILINE
  da : Bool := false   -- re.DOTALL
deriving Repr

def isWordChar (c : Char) : Bool :=
  c.isAlphanum || c = '_'

def evalCItem (ic : Bool) (it : CItem) (c : Char) : Bool :=
  match it with
  | .ch a => c = a || (ic && c.toLower = a.toLower)
  | .range lo hi =>
    (lo ≤ c && c ≤ hi) ||
      (ic && ((lo ≤ c.toLower && c.toLower ≤ hi) || (lo ≤ c.toUpper && c.toUpper ≤ hi)))
  | .digit => c.isDigit
  | .wordc => isWordChar c
  | .space => pyIsSpace c

def evalCCl (fl : RFlags) (cc : CCl) (c : Char) : Bool :=
  match cc with
  | .lit a => c = a || (fl.ic && c.toLower = a.toLower)
  | .dot => fl.da || c ≠ '\n'
  | .cls neg items =>
    let m := items.any (fun it => evalCItem fl.ic it c)
    if neg then !m else m

/-- Regex abstract syntax.  `rep lzy lo hi r` is `r{lo,hi}` (hi = none for
unbounded), lazy when `lzy`.  `grp i r` is capture group number `i`.
`la neg r` is `(?=r)` / `(?!r)`; `lb1 neg c` is a one-character lookbehind
`(?<=c)` / `(?<!c)` (the only form the sources use).  `bol`/`eol` are
`^`/`$` (MULTILINE-sensitive), `eos` is `\Z`. -/
inductive RE where
  | eps
  | cc (c : CCl)
  | seq (a b : RE)
  | alt (a b : RE)
  | rep (lzy : Bool) (lo : Nat) (hi : Option Nat) (r : RE)
  | grp (i : Nat) (r : RE)
  | bref (i : Nat)
  | bol
  | eol
  | eos
  | la (neg : Bool) (r : RE)
  | lb1 (neg : Bool) (c : CCl)
deriving Repr

/-- Captures: group number with captured text, most recent first. -/
abbrev Caps := List (Nat × List Char)

def capsGet (caps : Caps) (i : Nat) : Option (List Char) :=
  (caps.find? (fun e => e.1 = i)).map (·.2)

/-- Match a literal character sequence (used for backreferences). -/
def matchChars (fl : RFlags) : List Char → Option Char → List Char →
    (Option Char → List Char → Option (List Char × Caps)) → Option (List Char × Caps)
  | [], prev, s, k => k prev s
  | t :: ts, _, s, k =>
    match s with
    | [] => none
    | c :: rest =>
      if c = t || (fl.ic && c.toLower = t.toLower) then
        matchChars fl ts (some c) rest k
      else none

/-- The backtracking matcher, continuation passing.  `prev` is the character
just before the current position (for `^` and lookbehind), `s` the rest of
the input.  Alternation and quantifier branches are explored in Python
order, so the first success is Python's match.  `fuel` bounds the recursion
depth; every call site supplies ample fuel for its input, and a fuel-out
branch simply fails like a dead end. -/
def reM (fl : RFlags) : Nat → RE → Option Char → List Char → Caps →
    (Option Char → List Char → Caps → Option (List Char × Caps)) →
    Option (List Char × Caps)
  | 0, _, _, _, _, _ => none
  | fuel + 1, re, prev, s, caps, k =>
    match re with
    | .eps => k prev s caps
    | .cc c =>
      match s with
      | [] => none
      | a :: rest => if evalCCl fl c a then k (some a) rest caps else none
    | .seq a b =>
      reM fl fuel a prev s caps (fun p r cp => reM fl fuel b p r cp k)
    | .alt a b =>
      match reM fl fuel a prev s caps k with
      | some res => some res
      | none => reM fl fuel b prev s caps k
    | .rep lzy lo hi r =>
      if lo > 0 then
        reM fl fuel r prev s caps (fun p rst cp =>
          reM fl fuel (.rep lzy (lo - 1) (hi.map (· - 1)) r) p rst cp k)
      else
        let once := fun (kk : Option Char → List Char → Caps → Option (List Char × Caps)) =>
          if hi = some 0 then none
          else reM fl fuel r prev s caps (fun p rst cp =>
            reM fl fuel (.rep lzy 0 (hi.map (· - 1)) r) p rst cp kk)
        if lzy then
          match k prev s caps with
          | some res => some res
          | none => once k
        else
          match once k with
          | some res => some res
          | none => k prev s caps
    | .grp i r =>
      reM fl fuel r prev s caps (fun p rst cp =>
        k p rst ((i, s.take (s.length - rst.length)) :: cp))
    | .bref i =>
      match capsGet caps i with
      | none => none
      | some t => matchChars fl t prev s (fun p rst => k p rst caps)
    | .bol =>
      if prev.isNone || (fl.ml && prev = some '\n') then k prev s caps else none
    | .eol =>
      if fl.ml then
        if s.isEmpty || s.head? = some '\n' then k prev s caps else none
      else
        if s.isEmpty || s = ['\n'] then k prev s caps else none
    | .eos => if s.isEmpty then k prev s caps else none
    | .la neg r =>
      match reM fl fuel r prev s caps (fun _ rst cp => some (rst, cp)) with
      | some (_, cp) => if neg then none else k prev s cp
      | none => if neg then k prev s caps else none
    | .lb1 neg c =>
      let m := match prev with
        | some p => evalCCl fl c p
        | none => false
      if (if neg then !m else m) then k prev s caps else none

/-- A successful match: text before the match, the matched text, the rest,
and the captures. -/
structure RMatch where
  pre : List Char
  matched : List Char
  rest : List Char
  caps : Caps
deriving Repr

/-- Fuel big enough for every pattern/input pair in this development: depth
of the explored tree is bounded by pattern size times input length. -/
def reFuel (s : List Char) : Nat := 400 + 60 * s.length

/-- Try a match anchored at the current position. -/
def reMatchHere (fl : RFlags) (re : RE) (prev : Option Char) (s : List Char) :
    Option (List Char × Caps) :=
  reM fl (reFuel s) re prev s [] (fun _ rst cp => some (rst, cp))

/-- `re.search`: leftmost match (earliest start; at that start, Python's
backtracking choice). -/
def reSearchAux (fl : RFlags) (re : RE) : Option Char → List Char → List Char →
    Option RMatch
  | prev, s, acc =>
    match reMatchHere fl re prev s with
    | some (rst, cp) =>
      some ⟨acc.reverse, s.take (s.length - rst.length), rst, cp⟩
    | none =>
      match s with
      | [] => none
      | c :: rest => reSearchAux fl re (some c) rest (c :: acc)

def reSearch (fl : RFlags) (re : RE) (s : List Char) : Option RMatch :=
  reSearchAux fl re none s []

/-- Does the pattern match anywhere? -/
def reHasMatch (fl : RFlags) (re : RE) (s : List Char) : Bool :=
  (reSearch fl re s).isSome

/-- A replacement template: literal segments and group references
(`\1` etc.; group 0 is not used by the sources). -/
inductive RTok where
  | str (t : List Char)
  | gref (i : Nat)
deriving Repr

def rtExpand (tpl : List RTok) (m : RMatch) : List Char :=
  tpl.foldl
    (fun acc t =>
      acc ++ match t with
        | .str l => l
        | .gref i => (capsGet m.caps i).getD [])
    []

/-- Iterate matches like `re.finditer`/`re.sub`: leftmost, non-overlapping;
after an empty match one input character is copied and scanning resumes
after it (Python 3.7+ semantics).  Returns the rewritten text and the
number of substitutions. -/
def reSubnAux (fl : RFlags) (re : RE) (tpl : List RTok) :
    Nat → Option Char → List Char → List Char × Nat
  | 0, _, s => (s, 0)
  | fuel + 1, prev, s =>
    match reSearchAux fl re prev s [] with
    | none => (s, 0)
    | some m =>
      let repl := rtExpand tpl m
      if m.matched.isEmpty then
        match m.rest with
        | [] => (m.pre ++ repl, 1)
        | c :: rest =>
          let (tail, n) := reSubnAux fl re tpl fuel (some c) rest
          (m.pre ++ repl ++ [c] ++ tail, n + 1)
      else
        let prev' := m.matched.getLast? 
        let (tail, n) := reSubnAux fl re tpl fuel prev' m.rest
        (m.pre ++ repl ++ tail, n + 1)

/-- `pattern.subn(repl, s)` (and `pattern.sub` is its first component). -/
def reSubn (fl : RFlags) (re : RE) (tpl : List RTok) (s : List Char) :
    List Char × Nat :=
  reSubnAux fl re tpl (s.length + 1) none s

/-- The list of matched texts, as `re.finditer` yields them. -/
def reFindIterAux (fl : RFlags) (re : RE) :
    Nat → Option Char → List Char → List (RMatch)
  | 0, _, _ => []
  | fuel + 1, prev, s =>
    match reSearchAux fl re prev s [] with
    | none => []
    | some m =>
      if m.matched.isEmpty then
        match m.rest with
        | [] => [m]
        | c :: rest => m :: reFindIterAux fl re fuel (some c) rest
      else
        m :: reFindIterAux fl re fuel (m.matched.getLast?) m.rest

def reFindIter (fl : RFlags) (re : RE) (s : List Char) : List RMatch :=
  reFindIterAux fl re (s.length + 1) none s

/-- Number of matches (`len(re.findall(...))`). -/
def reCountMatches (fl : RFlags) (re : RE) (s : List Char) : Nat :=
  (reFindIter fl re s).length

/-- `pattern.match(s)`: anchored at the start. -/
def reMatchStart (fl : RFlags) (re : RE) (s : List Char) : Bool :=
  (reMatchHere fl re none s).isSome

/-! ### Combinators for transcribing pattern source -/

def rcat : List RE → RE
  | [] => .eps
  | [r] => r
  | r :: rest => .seq r (rcat rest)

def ralts : List RE → RE
  | [] => .eps
  | [r] => r
  | r :: rest => .alt r (ralts rest)

/-- A literal string. -/
def rS (s : String) : RE := rcat (s.data.map (fun c => RE.cc (.lit c)))

def rC (c : Char) : RE := .cc (.lit c)
def rDot : RE := .cc .dot
def rOpt (r : RE) : RE := .rep false 0 (some 1) r
def rOptL (r : RE) : RE := .rep true 0 (some 1) r
def rStar (r : RE) : RE := .rep false 0 none r
def rStarL (r : RE) : RE := .rep true 0 none r
def rPlus (r : RE) : RE := .rep false 1 none r
def rPlusL (r : RE) : RE := .rep true 1 none r
def rRep (lo : Nat) (hi : Option Nat) (r : RE) : RE := .rep false lo hi r

/-- `[...]` from items. -/
def rCls (items : List CItem) : RE := .cc (.cls false items)
/-- `[^...]` from items. -/
def rNCls (items : List CItem) : RE := .cc (.cls true items)
def iC (c : Char) : CItem := .ch c
def rD : RE := .cc (.cls false [.digit])
def rW : RE := .cc (.cls false [.wordc])
def rSp : RE := .cc (.cls false [.space])
/-- `.*?` -/
def rAnyL : RE := rStarL rDot

/-- Apostrophe character (kept out of literals for hygiene). -/
def apos : Char := Char.ofNat 39

/-- `re.sub(r'\n{3,}', '\n\n', s)` : every maximal run of three or more
newlines becomes exactly two (runs of one or two newlines are kept).  This
substitution recurs in all postprocess stages; it is implemented directly.
`pending` counts newlines seen but not yet emitted. -/
def collapseNLAux : Nat → List Char → List Char
  | pending, [] => List.replicate (min pending 2) '\n'
  | pending, c :: rest =>
    if c = '\n' then collapseNLAux (pending + 1) rest
    else List.replicate (min pending 2) '\n' ++ c :: collapseNLAux 0 rest

def collapseNewlines (s : List Char) : List Char := collapseNLAux 0 s

/-! ## `optimization_rules.py` : the ordered rule registry

Each compiled pattern of the module is transcribed as flags plus `RE`
syntax; `OPTIMIZATION_RULES_ORDERED` mirrors the list at the bottom of the
module.  Rules are applied by `pattern.sub('', content)`. -/

namespace optimization_rules

/-- `(?i)(?:This content was automatically scraped|Do not scrape|Web scraping not allowed|Crawling not permitted|Data extraction prohibited)`, IGNORECASE. -/
def SCRAPER_WARNING_PATTERN : RFlags × RE :=
  ({ ic := true },
   ralts [rS "This content was automatically scraped", rS "Do not scrape",
          rS "Web scraping not allowed", rS "Crawling not permitted",
          rS "Data extraction prohibited"])

/-- `(?i)(?:Published|Posted on|Last updated)(?:\s*(?:at|on))?:?\s*\d{1,2}[./\-]\d{1,2}[./\-]\d{2,4}(?:\s+\d{1,2}:\d{2}(?::\d{2})?(?:\s*[AP]M)?)?`, MULTILINE (and IGNORECASE from the inline flag). -/
def PUBLISHED_TIME_PATTERN : RFlags × RE :=
  ({ ic := true, ml := true },
   rcat [ralts [rS "Published", rS "Posted on", rS "Last updated"],
         rOpt (rcat [rStar rSp, ralts [rS "at", rS "on"]]),
         rOpt (rC ':'), rStar rSp,
         rRep 1 (some 2) rD, rCls [iC '.', iC '/', iC '-'],
         rRep 1 (some 2) rD, rCls [iC '.', iC '/', iC '-'],
         rRep 2 (some 4) rD,
         rOpt (rcat [rPlus rSp, rRep 1 (some 2) rD, rC ':', rRep 2 (some 2) rD,
                     rOpt (rcat [rC ':', rRep 2 (some 2) rD]),
                     rOpt (rcat [rStar rSp, rCls [iC 'A', iC 'P'], rC 'M'])])])

/-- `<img[^>]+(?:tracking|pixel|analytics|stats)[^>]*>|<img[^>]+height=["\']?1["\']?[^>]+width=["\']?1["\']?[^>]*>|<img[^>]+width=["\']?1["\']?[^>]+height=["\']?1["\']?[^>]*>`, IGNORECASE. -/
def WP_TRACKING_PIXEL_PATTERN : RFlags × RE :=
  ({ ic := true },
   let quote := rOpt (rCls [iC '"', iC apos])
   let dims := fun (a b : String) =>
     rcat [rS "<img", rPlus (rNCls [iC '>']), rS a, rC '=', quote, rC '1', quote,
           rPlus (rNCls [iC '>']), rS b, rC '=', quote, rC '1', quote,
           rStar (rNCls [iC '>']), rC '>']
   ralts [rcat [rS "<img", rPlus (rNCls [iC '>']),
                ralts [rS "tracking", rS "pixel", rS "analytics", rS "stats"],
                rStar (rNCls [iC '>']), rC '>'],
          dims "height" "width", dims "width" "height"])

/-- `^(?:Title|URL|Source):\s+\S+.*$`, MULTILINE. -/
def META_TITLE_URL_PATTERN : RFlags × RE :=
  ({ ml := true },
   rcat [.bol, ralts [rS "Title", rS "URL", rS "Source"], rC ':',
         rPlus rSp, rPlus (rNCls [CItem.space]), rStar rDot, .eol])

/-- `(?:Leave a (?:comment|reply)|Add your comment|Post a comment|Comments below|Share your thoughts).*?(?:below|\.|$)`, IGNORECASE. -/
def WP_COMMENT_PROMPT_PATTERN : RFlags × RE :=
  ({ ic := true },
   rcat [ralts [rcat [rS "Leave a ", ralts [rS "comment", rS "reply"]],
                rS "Add your comment", rS "Post a comment", rS "Comments below",
                rS "Share your thoughts"],
         rAnyL, ralts [rS "below", rC '.', .eol]])

/-- `(?:This (?:website|site) uses cookies|We use cookies|Cookie Policy|Accept cookies|We value your privacy).*?(?:experience|setting|privacy|policy|\.|$)`, IGNORECASE. -/
def WP_COOKIE_NOTICE_PATTERN : RFlags × RE :=
  ({ ic := true },
   rcat [ralts [rcat [rS "This ", ralts [rS "website", rS "site"], rS " uses cookies"],
                rS "We use cookies", rS "Cookie Policy", rS "Accept cookies",
                rS "We value your privacy"],
         rAnyL, ralts [rS "experience", rS "setting", rS "privacy", rS "policy",
                       rC '.', .eol]])

/-- `^\s*(?:GitHub|Repository|Source code):\s+https?://(?:www\.)?github\.com/[^/\s]+/[^/\s]+\s*$`, MULTILINE | IGNORECASE. -/
def GITHUB_LINK_PATTERN : RFlags × RE :=
  ({ ml := true, ic := true },
   rcat [.bol, rStar rSp, ralts [rS "GitHub", rS "Repository", rS "Source code"],
         rC ':', rPlus rSp, rS "http", rOpt (rC 's'), rS "://",
         rOpt (rS "www."), rS "github.com/",
         rPlus (rNCls [iC '/', CItem.space]), rC '/',
         rPlus (rNCls [iC '/', CItem.space]), rStar rSp, .eol])

/-- `^(?:#+ .+)\n+(?:#+ .+)$`, MULTILINE. -/
def REDUNDANT_HEADERS_PATTERN : RFlags × RE :=
  ({ ml := true },
   rcat [.bol, rPlus (rC '#'), rC ' ', rPlus rDot, rPlus (rC '\n'),
         rPlus (rC '#'), rC ' ', rPlus rDot, .eol])

/-- `<table[^>]*weebly[^>]*>.*?</table>|<table[^>]*>.*?(?:Logo|Home|About|Contact|Services).*?</table>`, IGNORECASE | DOTALL. -/
def WEEBLY_HEADER_TABLE_PATTERN : RFlags × RE :=
  ({ ic := true, da := true },
   ralts [rcat [rS "<table", rStar (rNCls [iC '>']), rS "weebly",
                rStar (rNCls [iC '>']), rC '>', rAnyL, rS "</table>"],
          rcat [rS "<table", rStar (rNCls [iC '>']), rC '>', rAnyL,
                ralts [rS "Logo", rS "Home", rS "About", rS "Contact", rS "Services"],
                rAnyL, rS "</table>"]])

/-- `---\s*\ntitle:.*?\n(?:description:.*?\n)?(?:date:.*?\n)?(?:tags:.*?\n)?(?:categories:.*?\n)?(?:slug:.*?\n)?(?:authors:.*?\n)?---\s*\n+`, DOTALL. -/
def MODAL_DOCS_HEADER_PATTERN : RFlags × RE :=
  ({ da := true },
   let fld := fun (name : String) => rOpt (rcat [rS name, rC ':', rAnyL, rC '\n'])
   rcat [rS "---", rStar rSp, rC '\n', rS "title:", rAnyL, rC '\n',
         fld "description", fld "date", fld "tags", fld "categories",
         fld "slug", fld "authors",
         rS "---", rStar rSp, rPlus (rC '\n')])

/-- `<(?:ul|ol)[^>]*(?:menu|navigation)[^>]*>.*?</(?:ul|ol)>`, IGNORECASE | DOTALL. -/
def WP_NAV_LIST_PATTERN : RFlags × RE :=
  ({ ic := true, da := true },
   rcat [rC '<', ralts [rS "ul", rS "ol"], rStar (rNCls [iC '>']),
         ralts [rS "menu", rS "navigation"], rStar (rNCls [iC '>']), rC '>',
         rAnyL, rS "</", ralts [rS "ul", rS "ol"], rC '>'])

/-- `<(?:div|section|aside)[^>]*(?:sidebar|widget-area)[^>]*>.*?</(?:div|section|aside)>`, IGNORECASE | DOTALL. -/
def WP_SIDEBAR_SECTIONS_PATTERN : RFlags × RE :=
  ({ ic := true, da := true },
   rcat [rC '<', ralts [rS "div", rS "section", rS "aside"], rStar (rNCls [iC '>']),
         ralts [rS "sidebar", rS "widget-area"], rStar (rNCls [iC '>']), rC '>',
         rAnyL, rS "</", ralts [rS "div", rS "section", rS "aside"], rC '>'])

/-- `<div[^>]*(?:slider|carousel|gallery)[^>]*>.*?</div>`, IGNORECASE | DOTALL. -/
def WP_SLIDER_NAV_PATTERN : RFlags × RE :=
  ({ ic := true, da := true },
   rcat [rS "<div", rStar (rNCls [iC '>']),
         ralts [rS "slider", rS "carousel", rS "gallery"],
         rStar (rNCls [iC '>']), rC '>', rAnyL, rS "</div>"])

/-- `(?:^(?:[-*+] )?(?:\[.*?\]\(.*?\)[ \t]*(?:\n|$)){3,})`, MULTILINE. -/
def CONSECUTIVE_LINK_LIST_PATTERN : RFlags × RE :=
  ({ ml := true },
   rcat [.bol, rOpt (rcat [rCls [iC '-', iC '*', iC '+'], rC ' ']),
         rRep 3 none (rcat [rC '[', rAnyL, rC ']', rC '(', rAnyL, rC ')',
                            rStar (rCls [iC ' ', iC '\t']),
                            ralts [rC '\n', .eol]])])

/-- `<img[^>]*(?:logo|brand|site-icon)[^>]*>`, IGNORECASE. -/
def LOGO_IMAGE_LINE_PATTERN : RFlags × RE :=
  ({ ic := true },
   rcat [rS "<img", rStar (rNCls [iC '>']),
         ralts [rS "logo", rS "brand", rS "site-icon"],
         rStar (rNCls [iC '>']), rC '>'])

/-- `^[ \t]*(?:-{3,}|\*{3,}|_{3,})[ \t]*$`, MULTILINE. -/
def MARKDOWN_HORIZONTAL_RULE_PATTERN : RFlags × RE :=
  ({ ml := true },
   rcat [.bol, rStar (rCls [iC ' ', iC '\t']),
         ralts [rRep 3 none (rC '-'), rRep 3 none (rC '*'), rRep 3 none (rC '_')],
         rStar (rCls [iC ' ', iC '\t']), .eol])

/-- `\.{5,}.*?Sutton Coldfield Quakers.*?$`, MULTILINE | IGNORECASE. -/
def SUTTON_QUAKER_DOTTED_FOOTER_PATTERN : RFlags × RE :=
  ({ ml := true, ic := true },
   rcat [rRep 5 none (rC '.'), rAnyL, rS "Sutton Coldfield Quakers", rAnyL, .eol])

/-- `(?:Powered by|Create your (?:own|free)).*?(?:Weebly|Site Builder|IONOS|Wix|Website Builder|WordPress).*?(?:\.|$)`, IGNORECASE. -/
def WEEBLY_FOOTER_PATTERN : RFlags × RE :=
  ({ ic := true },
   rcat [ralts [rS "Powered by", rcat [rS "Create your ", ralts [rS "own", rS "free"]]],
         rAnyL,
         ralts [rS "Weebly", rS "Site Builder", rS "IONOS", rS "Wix",
                rS "Website Builder", rS "WordPress"],
         rAnyL, ralts [rC '.', .eol]])

/-- `^(?:Address|Location|Connect With Us|Contact Us|Follow Us)(?::|)\s*\n(?:[^\n]+\n){1,5}(?=\n|$)`, MULTILINE | IGNORECASE. -/
def WP_ADDRESS_CONNECT_FOOTER_PATTERN : RFlags × RE :=
  ({ ml := true, ic := true },
   rcat [.bol, ralts [rS "Address", rS "Location", rS "Connect With Us",
                      rS "Contact Us", rS "Follow Us"],
         ralts [rC ':', .eps], rStar rSp, rC '\n',
         rRep 1 (some 5) (rcat [rPlus (rNCls [iC '\n']), rC '\n']),
         .la false (ralts [rC '\n', .eol])])

/-- The nav link inside `TRAILING_NAV_LINKS_PATTERN`. -/
def trailingNavLink : RE :=
  rcat [rC '[', ralts [rS "Home", rS "About", rS "Contact", rS "Services", rS "Products"],
        rOpt (rcat [rPlus rSp, ralts [rS "Page", rS "Us", rS "Me"]]),
        rC ']', rC '(', rAnyL, rC ')']

/-- `(?:\[(?:Home|About|Contact|Services|Products)(?:\s+(?:Page|Us|Me))?\]\(.*?\)(?:\s+\|\s+|\s*\n\s*)){2,}(?:\[...\]\(.*?\))`, IGNORECASE. -/
def TRAILING_NAV_LINKS_PATTERN : RFlags × RE :=
  ({ ic := true },
   rcat [rRep 2 none (rcat [trailingNavLink,
                            ralts [rcat [rPlus rSp, rC '|', rPlus rSp],
                                   rcat [rStar rSp, rC '\n', rStar rSp]]]),
         trailingNavLink])

/-- `^<header.*?>.*?</header>|<div[^>]*(?:site-header|page-header|main-header)[^>]*>.*?</div>`, IGNORECASE | DOTALL | MULTILINE. -/
def WEBSITE_HEADER_PATTERN : RFlags × RE :=
  ({ ic := true, da := true, ml := true },
   ralts [rcat [.bol, rS "<header", rAnyL, rC '>', rAnyL, rS "</header>"],
          rcat [rS "<div", rStar (rNCls [iC '>']),
                ralts [rS "site-header", rS "page-header", rS "main-header"],
                rStar (rNCls [iC '>']), rC '>', rAnyL, rS "</div>"]])

/-- `<footer.*?>.*?</footer>|<div[^>]*(?:site-footer|page-footer|main-footer)[^>]*>.*?</div>`, IGNORECASE | DOTALL. -/
def WEBSITE_FOOTER_PATTERN : RFlags × RE :=
  ({ ic := true, da := true },
   ralts [rcat [rS "<footer", rAnyL, rC '>', rAnyL, rS "</footer>"],
          rcat [rS "<div", rStar (rNCls [iC '>']),
                ralts [rS "site-footer", rS "page-footer", rS "main-footer"],
                rStar (rNCls [iC '>']), rC '>', rAnyL, rS "</div>"]])

/-- `​|‌|‍|﻿`. -/
def ZERO_WIDTH_SPACE_PATTERN : RFlags × RE :=
  ({},
   ralts [rC (Char.ofNat 0x200B), rC (Char.ofNat 0x200C),
          rC (Char.ofNat 0x200D), rC (Char.ofNat 0xFEFF)])

/-- `^(?:(?=.{1,60}$)\s*[A-Z][\w &'-]+(?:\s+[A-Z][\w &'-]+){0,4}(?<![.?!])\s*\n){4,}`, MULTILINE. -/
def SIMPLE_TEXT_NAV_MENU_PATTERN : RFlags × RE :=
  ({ ml := true },
   let word := rPlus (rCls [CItem.wordc, iC ' ', iC '&', iC apos, iC '-'])
   let line := rcat [.la false (rcat [rRep 1 (some 60) rDot, .eol]),
                     rStar rSp, rCls [CItem.range 'A' 'Z'], word,
                     rRep 0 (some 4) (rcat [rPlus rSp, rCls [CItem.range 'A' 'Z'], word]),
                     .lb1 true (.cls false [iC '.', iC '?', iC '!']),
                     rStar rSp, rC '\n']
   rcat [.bol, rRep 4 none line])

/-- The field-name alternation of `FORM_CONTENT_PATTERN`. -/
def formFieldNames : RE :=
  ralts [rS "First Name", rS "Last Name", rS "Name", rS "Email", rS "Phone",
         rS "Address", rS "Message", rS "Comments", rS "Company",
         rS "Organisation", rS "Subject", rS "Enquiry"]

/-- `FORM_CONTENT_PATTERN` (refined form pattern), DOTALL | MULTILINE |
IGNORECASE; group 1 is the form header, group 2 the `form_body` named
group.  Transcribed element by element from the commented source. -/
def FORM_CONTENT_PATTERN : RFlags × RE :=
  ({ da := true, ml := true, ic := true },
   let fieldStart := rcat [formFieldNames, rStar (rCls [CItem.space, CItem.wordc]),
                           ralts [rC '*', .eps], rStar rSp, rCls [iC ':', iC '\n']]
   let elt1 := rcat [rC '*', rStar rSp, rS "indicates required",
                     rStar (rNCls [iC '\n']), rPlus (rC '\n')]
   let elt2 := rcat [fieldStart, rAnyL, rPlus (rC '\n'),
                     .la false (ralts [fieldStart, rS "Submit", rS "Send",
                                       rS "Register", rS "Subscribe", rS "Book Now",
                                       rS "POWERED BY",
                                       rcat [rS "Sutton Coldfield Quakers",
                                             rRep 3 none (rC '.')],
                                       .eos])]
   let elt3 := rcat [rS "/*", rAnyL, rS "real people should not fill this in",
                     rAnyL, rS "*/", rStar rSp, rStar (rC '\n')]
   let elt4 := rcat [rS "Your ", ralts [rS "data", rS "privacy", rS "information"],
                     rS " is important", rAnyL, rPlus (rC '\n')]
   let elt5 := rcat [rAnyL, rS "unsubscribe", rAnyL,
                     ralts [rS "bottom of", rS "link in"], rAnyL,
                     ralts [rS "message", rS "email"], rAnyL, rPlus (rC '\n')]
   let elt6 := rcat [ralts [rS "Submit", rS "Send", rS "Register", rS "Subscribe",
                            rS "Book Now"],
                     rStar (rNCls [iC '\n']), rPlus (rC '\n')]
   rcat [ralts [.bol, rRep 2 none (rC '\n')],
         .grp 1 (rcat [ralts [rS "Subscribe", rS "Contact", rS "Sign up", rS "Join",
                              rS "Register", rS "Booking", rS "Enquiry",
                              rS "Get in Touch", rS "Send Message", rS "Newsletter",
                              rS "Email Updates"],
                       rStarL (rCls [CItem.space, CItem.wordc])]),
         rC '\n',
         rOpt (rcat [rRep 3 none (rCls [iC '-', iC '=']), rStar rSp, rPlus (rC '\n')]),
         .grp 2 (rPlus (ralts [elt1, elt2, elt3, elt4, elt5, elt6]))])

/-- `^(#+\s+.+?)\n+\1(?:\n+\1)*`, MULTILINE (identical consecutive
headings). -/
def DUPLICATE_HEADING_PATTERN : RFlags × RE :=
  ({ ml := true },
   rcat [.bol, .grp 1 (rcat [rPlus (rC '#'), rPlus rSp, rPlusL rDot]),
         rPlus (rC '\n'), .bref 1,
         rStar (rcat [rPlus (rC '\n'), .bref 1])])

/-- `ENHANCED_FORM_CONTENT_PATTERN`, DOTALL | MULTILINE | IGNORECASE;
group 1 is the header, group 2 the `form_body` named group. -/
def ENHANCED_FORM_CONTENT_PATTERN : RFlags × RE :=
  ({ da := true, ml := true, ic := true },
   let reqTag := rOpt (ralts [rC '*', rS "(required)"])
   let e1 := rcat [rC '*', rStar rSp, rS "indicates required",
                   rStar (rNCls [iC '\n']), rPlus (rC '\n')]
   let e2 := rcat [rStar rSp, rOpt (ralts [rS "First", rS "Last"]), rStar rSp,
                   rS "Name", rStar rSp, reqTag, rStar rSp, rPlus (rC '\n')]
   let e3 := rcat [rStar rSp, rS "Email", rStar rSp, rOpt (rS "Address"),
                   rStar rSp, reqTag, rStar rSp, rPlus (rC '\n')]
   let e4 := rcat [rStar rSp, rS "Phone", rStar rSp, rOpt (rS "Number"),
                   rStar rSp, reqTag, rStar rSp, rPlus (rC '\n')]
   let e5 := rcat [rStar rSp, rS "Message", rStar rSp, reqTag, rStar rSp,
                   rPlus (rC '\n')]
   let e6 := rcat [rStar rSp, rS "Comment", rOpt (rC 's'), rStar rSp, reqTag,
                   rStar rSp, rPlus (rC '\n')]
   let e7 := rcat [rS "/*", rAnyL, rS "real people should not fill this in",
                   rAnyL, rS "*/", rStar rSp, rStar (rC '\n')]
   let e8 := rcat [rStar rSp, rS "Your", rPlus rSp,
                   ralts [rS "data", rS "privacy", rS "information"],
                   rAnyL, rS "important", rAnyL, rPlus (rC '\n')]
   let e9 := rcat [rStar rSp, rS "We", rPlus rSp,
                   ralts [rcat [rS "do", rPlus rSp, rS "not", rPlus rSp, rS "share"],
                          rS "use", rS "collect"],
                   rAnyL, rS "information", rAnyL, rPlus (rC '\n')]
   let e10 := rcat [rStar rSp, rS "You", rPlus rSp, rS "can", rPlus rSp,
                    rS "unsubscribe", rAnyL,
                    ralts [rS "anytime",
                           rcat [rS "at", rPlus rSp, rS "any", rPlus rSp, rS "time"]],
                    rAnyL, rPlus (rC '\n')]
   let e11 := rcat [rStar rSp,
                    ralts [rS "Submit", rS "Send", rS "Register", rS "Subscribe",
                           rcat [rS "Sign", rPlus rSp, rS "Up"]],
                    rAnyL, rPlus (rC '\n')]
   rcat [ralts [.bol, rRep 2 none (rC '\n')],
         .grp 1 (rcat [ralts [rS "Subscribe", rS "Contact", rS "Sign up", rS "Join",
                              rS "Register", rS "Booking", rS "Enquiry",
                              rS "Get in Touch", rS "Send Message", rS "Newsletter",
                              rS "Email Updates", rS "Updates on"],
                       rStarL (rCls [CItem.space, CItem.wordc])]),
         rC '\n',
         rOpt (rcat [rRep 3 none (rCls [iC '-', iC '=']), rStar rSp, rPlus (rC '\n')]),
         .grp 2 (rPlus (ralts [e1, e2, e3, e4, e5, e6, e7, e8, e9, e10, e11])),
         rOpt (rcat [rStar rSp, rS "Archives"])])

/-- `OPTIMIZATION_RULES_ORDERED`, in the exact source order. -/
def OPTIMIZATION_RULES_ORDERED : List (String × RFlags × RE) :=
  [("Scraper Warning", SCRAPER_WARNING_PATTERN),
   ("Published Time", PUBLISHED_TIME_PATTERN),
   ("WP Tracking Pixel", WP_TRACKING_PIXEL_PATTERN),
   ("Meta Title/URL", META_TITLE_URL_PATTERN),
   ("WP Comment Prompt", WP_COMMENT_PROMPT_PATTERN),
   ("WP Cookie Notice", WP_COOKIE_NOTICE_PATTERN),
   ("Form Content", FORM_CONTENT_PATTERN),
   ("GitHub Link", GITHUB_LINK_PATTERN),
   ("Redundant Headers", REDUNDANT_HEADERS_PATTERN),
   ("Weebly Header Table", WEEBLY_HEADER_TABLE_PATTERN),
   ("Modal Docs Header", MODAL_DOCS_HEADER_PATTERN),
   ("WP Nav List", WP_NAV_LIST_PATTERN),
   ("WP Sidebar Sections", WP_SIDEBAR_SECTIONS_PATTERN),
   ("WP Slider Nav", WP_SLIDER_NAV_PATTERN),
   ("Consecutive Markdown Link List", CONSECUTIVE_LINK_LIST_PATTERN),
   ("Logo Image Line", LOGO_IMAGE_LINE_PATTERN),
   ("Markdown Horizontal Rule", MARKDOWN_HORIZONTAL_RULE_PATTERN),
   ("Sutton Quaker Dotted Footer", SUTTON_QUAKER_DOTTED_FOOTER_PATTERN),
   ("Weebly Footer", WEEBLY_FOOTER_PATTERN),
   ("WP Address/Connect Footer", WP_ADDRESS_CONNECT_FOOTER_PATTERN),
   ("Trailing Nav Links", TRAILING_NAV_LINKS_PATTERN),
   ("Simple Text Nav Menu", SIMPLE_TEXT_NAV_MENU_PATTERN),
   ("General Website Header", WEBSITE_HEADER_PATTERN),
   ("General Website Footer", WEBSITE_FOOTER_PATTERN),
   ("Zero Width Space", ZERO_WIDTH_SPACE_PATTERN),
   ("Duplicate Headings", DUPLICATE_HEADING_PATTERN),
   ("Enhanced Form Content", ENHANCED_FORM_CONTENT_PATTERN)]

end optimization_rules

/-! ## `notion_helpers.py` : module-level Notion utilities -/

namespace notion_helpers

/-- A hex digit `[a-f0-9]`. -/
def hexDigit : RE := rCls [CItem.range 'a' 'f', CItem.range '0' '9']

/-- `([^/\\]+?)[ _]([a-f0-9]{32})(?:\.[^/\\]*)?$` (no flags). -/
def NOTION_ID_PATTERN : RFlags × RE :=
  ({},
   rcat [.grp 1 (rPlusL (rNCls [iC '/', iC '\\'])),
         rCls [iC ' ', iC '_'],
         .grp 2 (rRep 32 (some 32) hexDigit),
         rOpt (rcat [rC '.', rStar (rNCls [iC '/', iC '\\'])]),
         .eol])

/-- `extract_notion_id(path)`: `(clean_name, notion_id)`, with
`notion_id = none` when the pattern does not match. -/
def extract_notion_id (path : List Char) : List Char × Option (List Char) :=
  match reSearch NOTION_ID_PATTERN.1 NOTION_ID_PATTERN.2 path with
  | some m => (pyStrip ((capsGet m.caps 1).getD []), some ((capsGet m.caps 2).getD []))
  | none => (path, none)

/-- `notion_clean_path(path)`: clean every `/`-separated component. -/
def notion_clean_path (path : List Char) : List Char :=
  pyJoin '/' ((pySplit '/' path).map (fun part => (extract_notion_id part).1))

/-- String-level wrapper for `notion_clean_path`. -/
def notionCleanPathS (s : String) : String := String.mk (notion_clean_path s.data)

end notion_helpers

/-! ## `content_helpers/base_helper.py` : the orchestrator contract -/

/-- A raised Python exception, by message. -/
abbrev PyErr := String

namespace base_helper

/-- The mutable statistics a `ContentHelperBase` instance accumulates (the
fields touched by `process_file`; `helper_specific_data` counters belong to
the concrete helpers and are modelled there). -/
structure HelperState where
  files_processed : Int := 0
  optimizations_applied : Int := 0
deriving Repr, DecidableEq

/-- The three abstract pipeline stages.  In the source they are abstract
methods taking `(content, file_path)` and mutating `self.stats`; here a
stage is any function from its input and the statistics to a possibly
raised exception plus the updated statistics (the file path, fixed per
call, may be captured in the closure). -/
structure Stages (P O : Type) where
  preprocess_content : String → HelperState → Except PyErr P × HelperState
  optimize_content : P → HelperState → Except PyErr (O × PyDict) × HelperState
  postprocess_content : O → HelperState → Except PyErr (Option String) × HelperState

/-- `ContentHelperBase.process_file(file_path, content)`.

`fs` is the text obtained if the orchestrator has to read the file itself
(`none` = unreadable/missing).  The result is the returned
`(processed_content, stats)` pair plus the helper statistics after the
call; every pipeline exception is caught and turned into a tagged error
result, so the function is total. -/
def process_file {P O : Type} (stages : Stages P O)
    (fs : Option String) (st : HelperState)
    (file_path : Option String) (content : Option String) :
    (String × PyDict) × HelperState :=
  match file_path with
  | none => (("", [("error", .str "Invalid file path (None)")]), st)
  | some _ =>
    match content, fs with
    | none, none =>
      (("", [("error", .str "File read error: unreadable file")]), st)
    | _, _ =>
      let c := match content with
        | some c => c
        | none => fs.getD ""
      if c = "" then (("", [("empty_file", .int 1)]), st)
      else
        match stages.preprocess_content c st with
        | (.error e, st1) =>
          (("", [("error", .str ("Processing error: " ++ e))]), st1)
        | (.ok p, st1) =>
          match stages.optimize_content p st1 with
          | (.error e, st2) =>
            (("", [("error", .str ("Processing error: " ++ e))]), st2)
          | (.ok (o, opt_stats), st2) =>
            match stages.postprocess_content o st2 with
            | (.error e, st3) =>
              (("", [("error", .str ("Processing error: " ++ e))]), st3)
            | (.ok finO, st3) =>
              let st4 := { st3 with files_processed := st3.files_processed + 1 }
              match pdSumValues opt_stats with
              | .error e =>
                (("", [("error", .str ("Processing error: " ++ e))]), st4)
              | .ok n =>
                let st5 := { st4 with
                  optimizations_applied := st4.optimizations_applied + n }
                let finStats : String × PyDict :=
                  match finO with
                  | none =>
                    ("", pdSet opt_stats "error"
                      (.str "Postprocessing returned None content"))
                  | some f => (f, opt_stats)
                let fin := finStats.1
                let opt_stats2 := finStats.2
                if fin.length > c.length then
                  ((c, pdSet (pdSet opt_stats2 "size_increased"
                      (.int ((fin.length : Int) - (c.length : Int))))
                      "reverted_to_original" (.bool true)), st5)
                else ((fin, opt_stats2), st5)

end base_helper

/-! ## `content_helpers/markdown_helper.py` -/

namespace markdown_helper

/-- Constructor configuration with the `__init__` defaults. -/
structure MdConfig where
  preserve_frontmatter : Bool := true
  preserve_code_blocks : Bool := true
  preserve_tables : Bool := true
  preserve_links : Bool := true
  preserve_images : Bool := true
  fix_redundant_links : Bool := true
  preserve_badges : Bool := false
  preserve_html : Bool := true
  preserve_comments : Bool := false
  fix_relative_links : Bool := false
deriving Repr

/-- The `self.stats` counters of `MarkdownHelper` (`helper_name` is the
constant "Markdown Helper"). -/
structure MdStats where
  frontmatter_preserved : Int := 0
  code_blocks_preserved : Int := 0
  tables_preserved : Int := 0
  links_preserved : Int := 0
  images_preserved : Int := 0
  redundant_links_fixed : Int := 0
  relative_links_fixed : Int := 0
  html_blocks_preserved : Int := 0
  comments_preserved : Int := 0
  files_processed : Int := 0
deriving Repr, DecidableEq

/-- `self.stats` as the Python dict (for the `{**self.stats, ...}` merge in
`process_file`). -/
def mdStatsDict (st : MdStats) : PyDict :=
  [("helper_name", .str "Markdown Helper"),
   ("helper_specific_data", .dict
     [("frontmatter_preserved", .int st.frontmatter_preserved),
      ("code_blocks_preserved", .int st.code_blocks_preserved),
      ("tables_preserved", .int st.tables_preserved),
      ("links_preserved", .int st.links_preserved),
      ("images_preserved", .int st.images_preserved),
      ("redundant_links_fixed", .int st.redundant_links_fixed),
      ("relative_links_fixed", .int st.relative_links_fixed),
      ("html_blocks_preserved", .int st.html_blocks_preserved),
      ("comments_preserved", .int st.comments_preserved)]),
   ("files_processed", .int st.files_processed)]

def alphaItems : List CItem := [CItem.range 'a' 'z', CItem.range 'A' 'Z']
def alnumItems : List CItem := alphaItems ++ [CItem.range '0' '9']

/-- `^\s*---\s*\n.*?\n\s*---\s*\n`, DOTALL. -/
def frontmatter_pattern : RFlags × RE :=
  ({ da := true },
   rcat [.bol, rStar rSp, rS "---", rStar rSp, rC '\n', rAnyL, rC '\n',
         rStar rSp, rS "---", rStar rSp, rC '\n'])

/-- ```` ```(?:[a-zA-Z0-9]*)\n.*?``` ````, DOTALL. -/
def code_block_pattern : RFlags × RE :=
  ({ da := true },
   rcat [rS "```", rStar (rCls alnumItems), rC '\n', rAnyL, rS "```"])

/-- `\n\s*\|.*?\|.*?\n(?:\s*\|[-:]+\|[-:]+\|\n)(?:\s*\|.*?\|.*?\n)+`, DOTALL. -/
def table_pattern : RFlags × RE :=
  ({ da := true },
   rcat [rC '\n', rStar rSp, rC '|', rAnyL, rC '|', rAnyL, rC '\n',
         rStar rSp, rC '|', rPlus (rCls [iC '-', iC ':']), rC '|',
         rPlus (rCls [iC '-', iC ':']), rC '|', rC '\n',
         rPlus (rcat [rStar rSp, rC '|', rAnyL, rC '|', rAnyL, rC '\n'])])

/-- `!\[.*?\]\(.*?\)`. -/
def image_pattern : RFlags × RE :=
  ({}, rcat [rC '!', rC '[', rAnyL, rC ']', rC '(', rAnyL, rC ')'])

/-- `(?<!!)\[.*?\]\(.*?\)`. -/
def link_pattern : RFlags × RE :=
  ({}, rcat [.lb1 true (.lit '!'), rC '[', rAnyL, rC ']', rC '(', rAnyL, rC ')'])

/-- `<[a-zA-Z]+[^>]*>.*?</[a-zA-Z]+>`, DOTALL. -/
def html_block_pattern : RFlags × RE :=
  ({ da := true },
   rcat [rC '<', rPlus (rCls alphaItems), rStar (rNCls [iC '>']), rC '>',
         rAnyL, rS "</", rPlus (rCls alphaItems), rC '>'])

/-- `<!--.*?-->`, DOTALL. -/
def html_comment_pattern : RFlags × RE :=
  ({ da := true }, rcat [rS "<!--", rAnyL, rS "-->"])

/-- `!\[.*?\]\(https?://(?:img\.shields\.io|shields\.io|badge\.fury\.io).*?\)`. -/
def badge_pattern : RFlags × RE :=
  ({},
   rcat [rC '!', rC '[', rAnyL, rC ']', rC '(', rS "http", rOpt (rC 's'),
         rS "://", ralts [rS "img.shields.io", rS "shields.io", rS "badge.fury.io"],
         rAnyL, rC ')'])

/-- `^\s*---\s*\n.*?globs:.*?\n\s*---\s*\n`, DOTALL. -/
def mdc_frontmatter_pattern : RFlags × RE :=
  ({ da := true },
   rcat [.bol, rStar rSp, rS "---", rStar rSp, rC '\n', rAnyL, rS "globs:",
         rAnyL, rC '\n', rStar rSp, rS "---", rStar rSp, rC '\n'])

/-- `^\s*(?:description|globs|mode|scope|options):\s*.*?$`, MULTILINE. -/
def cursorrules_properties_pattern : RFlags × RE :=
  ({ ml := true },
   rcat [.bol, rStar rSp,
         ralts [rS "description", rS "globs", rS "mode", rS "scope", rS "options"],
         rC ':', rStar rSp, rStarL rDot, .eol])

/-- The inline detection probe `^#+\s+\w+`, MULTILINE. -/
def heading_probe_pattern : RFlags × RE :=
  ({ ml := true }, rcat [.bol, rPlus (rC '#'), rPlus rSp, rPlus rW])

/-- `\[(https?://[^\]]+)\]\(\1\)`. -/
def redundant_links_pattern : RFlags × RE :=
  ({},
   rcat [rC '[',
         .grp 1 (rcat [rS "http", rOpt (rC 's'), rS "://", rPlus (rNCls [iC ']'])]),
         rC ']', rC '(', .bref 1, rC ')'])

/-- `\[([^\]]+)\]\((?!https?://|#)([^)]+)\)`. -/
def relative_links_pattern : RFlags × RE :=
  ({},
   rcat [rC '[', .grp 1 (rPlus (rNCls [iC ']'])), rC ']', rC '(',
         .la true (ralts [rcat [rS "http", rOpt (rC 's'), rS "://"], rC '#']),
         .grp 2 (rPlus (rNCls [iC ')'])), rC ')'])

/-- `MarkdownHelper.detect_content_type(file_path, content)`.  Never reads
the file; total for every input including a `None` path. -/
def detect_content_type (st : MdStats) (file_path : Option String)
    (content : Option String) : Except PyErr ℚ × MdStats :=
  match file_path with
  | none => (.ok 0, st)        -- `if not file_path: return 0.0`
  | some fp =>
    if fp = "" then (.ok 0, st)
    else
      let fpl := pyLower fp.data
      if pyEndsWith fpl ".md".data then (.ok 0.9, st)
      else if pyEndsWith fpl ".mdc".data then (.ok 0.95, st)
      else if pyEndsWith fpl ".cursorrules".data then (.ok 0.95, st)
      else if pyEndsWith fpl ".markdown".data then (.ok 0.9, st)
      else
        match content with
        | none => (.ok 0.1, st)
        | some c =>
          if c = "" then (.ok 0.1, st)    -- `if content:` is falsy
          else
            let cd := c.data
            if reHasMatch frontmatter_pattern.1 frontmatter_pattern.2 cd then
              (.ok 0.8, st)
            else if containsSub "```".data cd &&
                reHasMatch code_block_pattern.1 code_block_pattern.2 cd then
              (.ok 0.7, st)
            else if containsSub "#".data cd &&
                reHasMatch heading_probe_pattern.1 heading_probe_pattern.2 cd then
              (.ok 0.6, st)
            else if reHasMatch link_pattern.1 link_pattern.2 cd ||
                reHasMatch image_pattern.1 image_pattern.2 cd then
              (.ok 0.5, st)
            else if reHasMatch mdc_frontmatter_pattern.1 mdc_frontmatter_pattern.2 cd then
              (.ok 0.9, st)
            else if reHasMatch cursorrules_properties_pattern.1
                cursorrules_properties_pattern.2 cd then
              (.ok 0.85, st)
            else (.ok 0.1, st)

/-- The `metadata` dict built by `preprocess_content` (defaults model the
empty dict returned for empty content: every `get` then yields its
default). -/
structure MdMeta where
  frontmatter : Option (List Char) := none
  code_blocks : List (List Char × List Char) := []
  tables : List (List Char × List Char) := []
  html_blocks : List (List Char × List Char) := []
  html_comments : List (List Char × List Char) := []
  images : List (List Char × List Char) := []
  links : List (List Char × List Char) := []
  is_mdc : Bool := false
  is_cursorrules : Bool := false
deriving Repr

/-- The dict returned by `preprocess_content` and stashed in
`self._preprocessed_data`. -/
structure MdPre where
  content : List Char
  metadata : MdMeta
deriving Repr

/-- Replace each `(placeholder, fragment)` pair in order,
`content.replace(fragment, placeholder)`. -/
def parkAll (pairs : List (List Char × List Char)) (content : List Char) : List Char :=
  pairs.foldl (fun acc pb => pyReplace acc pb.2 pb.1) content

/-- Restore each `(placeholder, fragment)` pair in order,
`content.replace(placeholder, fragment)`. -/
def restoreAll (pairs : List (List Char × List Char)) (content : List Char) : List Char :=
  pairs.foldl (fun acc pb => pyReplace acc pb.1 pb.2) content

set_option maxHeartbeats 1000000 in
/-- `MarkdownHelper.preprocess_content(content, file_path)`. -/
def preprocess_content (cfg : MdConfig) (st : MdStats) (content : List Char)
    (file_path : Option String) : MdPre × MdStats :=
  if content.isEmpty then ({ content := [], metadata := {} }, st)
  else
    -- frontmatter
    let fmStep : Option (List Char) × List Char × MdStats :=
      if cfg.preserve_frontmatter then
        match reSearch frontmatter_pattern.1 frontmatter_pattern.2 content with
        | some m => (some m.matched, m.rest,
            { st with frontmatter_preserved := st.frontmatter_preserved + 1 })
        | none => (none, content, st)
      else (none, content, st)
    let fm0 := fmStep.1
    let cwf0 := fmStep.2.1
    let st0 := fmStep.2.2
    -- MDC / CursorRules frontmatter
    let is_mdc := match file_path with
      | some p => pyEndsWith (pyLower p.data) ".mdc".data
      | none => false
    let is_cursorrules := match file_path with
      | some p => pyEndsWith (pyLower p.data) ".cursorrules".data
      | none => false
    let mdcStep : Option (List Char) × List Char × MdStats :=
      if is_mdc || is_cursorrules then
        match reSearch mdc_frontmatter_pattern.1 mdc_frontmatter_pattern.2 content with
        | some m => (some m.matched, m.rest,
            { st0 with frontmatter_preserved := st0.frontmatter_preserved + 1 })
        | none => (fm0, cwf0, st0)
      else (fm0, cwf0, st0)
    let fm := mdcStep.1
    let cwf1 := mdcStep.2.1
    let st1 := mdcStep.2.2
    -- code blocks
    let code_blocks :=
      if cfg.preserve_code_blocks then
        (reFindIter code_block_pattern.1 code_block_pattern.2 cwf1).enum.map
          (fun im => (("CODE_BLOCK_" ++ toString im.1).data, im.2.matched))
      else []
    let st2 := { st1 with
      code_blocks_preserved := st1.code_blocks_preserved + code_blocks.length }
    let cwf2 := parkAll code_blocks cwf1
    -- tables
    let tables :=
      if cfg.preserve_tables then
        (reFindIter table_pattern.1 table_pattern.2 cwf2).enum.map
          (fun im => (("TABLE_" ++ toString im.1).data, im.2.matched))
      else []
    let st3 := { st2 with tables_preserved := st2.tables_preserved + tables.length }
    let cwf3 := parkAll tables cwf2
    -- HTML blocks
    let html_blocks :=
      if cfg.preserve_html then
        (reFindIter html_block_pattern.1 html_block_pattern.2 cwf3).enum.map
          (fun im => (("HTML_BLOCK_" ++ toString im.1).data, im.2.matched))
      else []
    let st4 := { st3 with
      html_blocks_preserved := st3.html_blocks_preserved + html_blocks.length }
    let cwf4 := parkAll html_blocks cwf3
    -- HTML comments
    let html_comments :=
      if cfg.preserve_comments then
        (reFindIter html_comment_pattern.1 html_comment_pattern.2 cwf4).enum.map
          (fun im => (("HTML_COMMENT_" ++ toString im.1).data, im.2.matched))
      else []
    let st5 := { st4 with
      comments_preserved := st4.comments_preserved + html_comments.length }
    let cwf5 := parkAll html_comments cwf4
    -- images (badges skipped when not preserved; the enumerate counter of
    -- the original finditer is kept for skipped entries)
    let images :=
      if cfg.preserve_images then
        ((reFindIter image_pattern.1 image_pattern.2 cwf5).enum.filter
          (fun im => cfg.preserve_badges ||
            !(reMatchStart badge_pattern.1 badge_pattern.2 im.2.matched))).map
          (fun im => (("IMAGE_" ++ toString im.1).data, im.2.matched))
      else []
    let st6 := { st5 with images_preserved := st5.images_preserved + images.length }
    let cwf6 := parkAll images cwf5
    -- links
    let links :=
      if cfg.preserve_links then
        (reFindIter link_pattern.1 link_pattern.2 cwf6).enum.map
          (fun im => (("LINK_" ++ toString im.1).data, im.2.matched))
      else []
    let st7 := { st6 with links_preserved := st6.links_preserved + links.length }
    let cwf7 := parkAll links cwf6
    ({ content := cwf7,
       metadata := { frontmatter := fm, code_blocks := code_blocks,
                     tables := tables, html_blocks := html_blocks,
                     html_comments := html_comments, images := images,
                     links := links, is_mdc := is_mdc,
                     is_cursorrules := is_cursorrules } }, st7)

/-- The rule names skipped for MDC / CursorRules files. -/
def mdcSkippedRules : List String :=
  ["WP Nav List", "WP Sidebar Sections", "WP Slider Nav",
   "Consecutive Markdown Link List", "Simple Text Nav Menu"]

/-- `MarkdownHelper.optimize_content(content_data, file_path)`.
`rulesAvailable` models whether `import optimization_rules` succeeds.  When
it fails, the `except ImportError` handler only collapses newline runs, and
the later construction of the stats dict reads the never-assigned local
`rule_trigger_stats`, raising `NameError` - after the redundant-link fix has
already updated `self.stats`. -/
def optimize_content (rulesAvailable : Bool) (cfg : MdConfig) (st : MdStats)
    (data : MdPre) : Except PyErr (List Char × PyDict) × MdStats :=
  let content0 := data.content
  let is_special := data.metadata.is_mdc || data.metadata.is_cursorrules
  let afterRules : List Char × PyDict :=
    if rulesAvailable then
      optimization_rules.OPTIMIZATION_RULES_ORDERED.foldl
        (fun acc rule =>
          if is_special && mdcSkippedRules.contains rule.1 then acc
          else
            let newC := (reSubn rule.2.1 rule.2.2 [] acc.1).1
            if newC ≠ acc.1 then (newC, acc.2 ++ [(rule.1, .int 1)])
            else (newC, acc.2))
        (content0, [])
    else (collapseNewlines content0, [])
  let content1 := afterRules.1
  let triggers := afterRules.2
  -- fix redundant links
  let redStep : List Char × MdStats :=
    if cfg.fix_redundant_links then
      let newC := (reSubn redundant_links_pattern.1 redundant_links_pattern.2
        [.gref 1] content1).1
      if newC ≠ content1 then
        (newC, { st with redundant_links_fixed := st.redundant_links_fixed + 1 })
      else (newC, st)
    else (content1, st)
  let content2 := redStep.1
  let st1 := redStep.2
  -- fix relative links
  let relStep : List Char × MdStats :=
    if cfg.fix_relative_links then
      let newC := (reSubn relative_links_pattern.1 relative_links_pattern.2
        [.gref 1] content2).1
      if newC ≠ content2 then
        (newC, { st1 with relative_links_fixed := st1.relative_links_fixed + 1 })
      else (newC, st1)
    else (content2, st1)
  let content3 := relStep.1
  let st2 := relStep.2
  if rulesAvailable then
    (.ok (content3,
      [("optimized_content", .str (String.mk content3)),
       ("rule_trigger_stats", .dict triggers)]), st2)
  else
    -- the ImportError path never assigned rule_trigger_stats
    (.error "NameError: rule_trigger_stats is not defined", st2)

/-- `MarkdownHelper.postprocess_content(content, file_path)` with
`self._preprocessed_data` passed explicitly (it is `none` when the
attribute was never set, in which case the content is returned as is). -/
def postprocess_content (st : MdStats) (pdata : Option MdPre)
    (content : List Char) : List Char × MdStats :=
  match pdata with
  | none => (content, st)
  | some pre =>
    let m := pre.metadata
    let c1 := restoreAll m.links content
    let c2 := restoreAll m.images c1
    let c3 := restoreAll m.html_comments c2
    let c4 := restoreAll m.html_blocks c3
    let c5 := restoreAll m.tables c4
    let c6 := restoreAll m.code_blocks c5
    let c7 := match m.frontmatter with
      | some f => if f.isEmpty then c6 else f ++ c6
      | none => c6
    (collapseNewlines c7, { st with files_processed := st.files_processed + 1 })

/-- `MarkdownHelper.process_file(file_path, content)` - the override, which
runs the stages without the base class try/except and without any size
check; a stage exception reaches the caller (`Except.error`). -/
def process_file (rulesAvailable : Bool) (cfg : MdConfig) (fs : Option String)
    (st : MdStats) (file_path : Option String) (content : Option String) :
    Except PyErr (String × PyDict) × MdStats :=
  match content, fs with
  | none, none =>
    (.ok ("Error reading file: unreadable file",
      [("error", .str "unreadable file")]), st)
  | _, _ =>
    let c := match content with
      | some c => c
      | none => fs.getD ""
    let (pre, st1) := preprocess_content cfg st c.data file_path
    match optimize_content rulesAvailable cfg st1 pre with
    | (.error e, st2) => (.error e, st2)
    | (.ok (optC, optStats), st2) =>
      let (finalC, st3) := postprocess_content st2 (some pre) optC
      (.ok (String.mk finalC, pdUpdate (mdStatsDict st3) optStats), st3)

end markdown_helper

/-! ## `content_helpers/notion_helper.py` -/

namespace notion_helper

/-- The `self.stats` counters of `NotionHelper` (the base-class fields plus
its own `helper_specific_data` additions). -/
structure NotionStats where
  files_processed : Int := 0
  optimizations_applied : Int := 0
  duplicates_removed : Int := 0
  duplicate_headings_removed : Int := 0
  forms_removed : Int := 0
  notion_ids_count : Int := 0
  cleaned_files : Int := 0
  properties_converted : Int := 0
deriving Repr, DecidableEq

/-- Constructor configuration with the `__init__` defaults. -/
structure NotionConfig where
  preserve_callouts : Bool := true
  preserve_toggles : Bool := true
  include_id_comments : Bool := true
  convert_properties : Bool := true
deriving Repr

/-- `NOTION_ID_PATTERN` - the same literal as in `notion_helpers.py`. -/
def NOTION_ID_PATTERN : RFlags × RE := notion_helpers.NOTION_ID_PATTERN

/-- `^---+\s*$`, MULTILINE. -/
def NOTION_DIVIDERS_PATTERN : RFlags × RE :=
  ({ ml := true }, rcat [.bol, rS "---", rStar (rC '-'), rStar rSp, .eol])

/-- `^(?:Property|Properties):\s*\n(?:(?:[^\n]+: [^\n]+\n)+)`, MULTILINE. -/
def NOTION_PROPERTIES_PATTERN : RFlags × RE :=
  ({ ml := true },
   rcat [.bol, ralts [rS "Property", rS "Properties"], rC ':', rStar rSp, rC '\n',
         rPlus (rcat [rPlus (rNCls [iC '\n']), rS ": ",
                      rPlus (rNCls [iC '\n']), rC '\n'])])

/-- `^(?:Created|Last Edited)(?:[ :]+).*?\d{4}\s*$`, MULTILINE. -/
def NOTION_TIMESTAMPS_PATTERN : RFlags × RE :=
  ({ ml := true },
   rcat [.bol, ralts [rS "Created", rS "Last Edited"],
         rPlus (rCls [iC ' ', iC ':']), rStarL rDot,
         rRep 4 (some 4) rD, rStar rSp, .eol])

/-- `https://www\.notion\.so/[a-f0-9]{32}`. -/
def NOTION_URL_PATTERN : RFlags × RE :=
  ({}, rcat [rS "https://www.notion.so/",
             rRep 32 (some 32) notion_helpers.hexDigit])

/-- `\[\[([^\]]+)\]\]`. -/
def NOTION_COMMENTS_PATTERN : RFlags × RE :=
  ({}, rcat [rS "[[", .grp 1 (rPlus (rNCls [iC ']'])), rS "]]"])

/-- `\[(\d+)\]\(#cite-[a-f0-9-]+\)`. -/
def NOTION_CITATIONS_PATTERN : RFlags × RE :=
  ({}, rcat [rC '[', .grp 1 (rPlus rD), rC ']', rS "(#cite-",
             rPlus (rCls [CItem.range 'a' 'f', CItem.range '0' '9', iC '-']),
             rC ')'])

/-- `>\s*(📝|💡|⚠️|ℹ️|🔍|🚫|✅|❌).*?(?:\n>.*?)*`, MULTILINE | DOTALL
(the two-codepoint emoji are literal character sequences). -/
def NOTION_CALLOUT_PATTERN : RFlags × RE :=
  ({ ml := true, da := true },
   rcat [rC '>', rStar rSp,
         .grp 1 (ralts [rS "📝", rS "💡", rS "⚠️", rS "ℹ️", rS "🔍",
                        rS "🚫", rS "✅", rS "❌"]),
         rAnyL, rStar (rcat [rC '\n', rC '>', rAnyL])])

/-- `<details>.*?<summary>(.*?)</summary>.*?</details>`, MULTILINE | DOTALL. -/
def NOTION_TOGGLE_PATTERN : RFlags × RE :=
  ({ ml := true, da := true },
   rcat [rS "<details>", rAnyL, rS "<summary>", .grp 1 rAnyL,
         rS "</summary>", rAnyL, rS "</details>"])

/-- `NOTION_PROPERTY_TO_FRONTMATTER` lookup table. -/
def NOTION_PROPERTY_TO_FRONTMATTER : List (String × String) :=
  [("Title", "title"), ("Name", "title"), ("Tags", "tags"),
   ("Category", "category"), ("Categories", "categories"),
   ("Author", "author"), ("Authors", "authors"), ("Date", "date"),
   ("Published", "date"), ("Status", "status"),
   ("Description", "description"), ("Summary", "summary")]

/-- `os.path.basename` (posix separator, as the source relies on). -/
def osBasename (s : List Char) : List Char :=
  ((pySplit '/' s).getLast?).getD s

/-- `NotionHelper.extract_notion_id` - same body as the module function. -/
def extract_notion_id (path : List Char) : List Char × Option (List Char) :=
  notion_helpers.extract_notion_id path

/-- The memoisation and id-map state of a `NotionHelper` instance together
with its statistics. -/
structure NotionPathState where
  id_map : List (List Char × List Char) := []
  cleaned_paths : List (List Char × List Char) := []
  stats : NotionStats := {}
deriving Repr

/-- Association-list assignment with dict overwrite semantics, for
`List Char` keys. -/
def alSet (l : List (List Char × List Char)) (k v : List Char) :
    List (List Char × List Char) :=
  if (l.find? (fun e => e.1 = k)).isSome then
    l.map (fun e => if e.1 = k then (k, v) else e)
  else l ++ [(k, v)]

/-- `NotionHelper.clean_file_path(path)`: memoised per original path;
records ids of cleaned components in `id_map`. -/
def clean_file_path (st : NotionPathState) (path : List Char) :
    List Char × NotionPathState :=
  match st.cleaned_paths.find? (fun e => e.1 = path) with
  | some e => (e.2, st)
  | none =>
    let folded := (pySplit '/' path).foldl
      (fun (acc : List (List Char) × NotionPathState) part =>
        let (clean_name, nid) := extract_notion_id part
        let cleaned := acc.1 ++ [clean_name]
        match nid with
        | some idv =>
          (cleaned,
           { acc.2 with
             id_map := alSet acc.2.id_map (pyJoin '/' cleaned) idv,
             stats := { acc.2.stats with
               notion_ids_count := acc.2.stats.notion_ids_count + 1 } })
        | none => (cleaned, acc.2))
      ([], st)
    let cleaned_path := pyJoin '/' folded.1
    (cleaned_path,
     { folded.2 with
       cleaned_paths := folded.2.cleaned_paths ++ [(path, cleaned_path)],
       stats := { folded.2.stats with
         cleaned_files := folded.2.stats.cleaned_files + 1 } })

/-- `NotionHelper.detect_content_type(file_path, content)`.  A `None` path
raises `TypeError` inside `os.path.basename`; an unreadable file yields
confidence 0.0. -/
def detect_content_type (st : NotionStats) (fs : Option String)
    (file_path : Option String) (content : Option String) :
    Except PyErr ℚ × NotionStats :=
  match file_path with
  | none =>
    (.error "TypeError: expected str, bytes or os.PathLike object, not NoneType", st)
  | some fp =>
    let (_, nid) := extract_notion_id (osBasename fp.data)
    if nid.isSome then (.ok 0.7, st)   -- min(0.0 + 0.7, 1.0), early return
    else
      let sample : Option (List Char) := match content with
        | some c => some c.data
        | none => fs.map (·.data)
      match sample with
      | none => (.ok 0, st)     -- cannot read file
      | some cd =>
        let conf : ℚ :=
          (if reHasMatch NOTION_PROPERTIES_PATTERN.1 NOTION_PROPERTIES_PATTERN.2 cd
            then 0.5 else 0) +
          (if reHasMatch NOTION_TIMESTAMPS_PATTERN.1 NOTION_TIMESTAMPS_PATTERN.2 cd
            then 0.3 else 0) +
          (if reHasMatch NOTION_URL_PATTERN.1 NOTION_URL_PATTERN.2 cd
            then 0.4 else 0) +
          (if reHasMatch NOTION_COMMENTS_PATTERN.1 NOTION_COMMENTS_PATTERN.2 cd
            then 0.2 else 0) +
          (if reHasMatch NOTION_CALLOUT_PATTERN.1 NOTION_CALLOUT_PATTERN.2 cd
            then 0.2 else 0) +
          (if reHasMatch NOTION_TOGGLE_PATTERN.1 NOTION_TOGGLE_PATTERN.2 cd
            then 0.2 else 0)
        (.ok (min conf 1), st)

/-- `NotionHelper._convert_properties_to_frontmatter(properties_block)`:
`none` models the Python `None` result. -/
def convert_properties_to_frontmatter (block : List Char) :
    Option (List Char) :=
  let lines := pySplit '\n' (pyStrip block)
  let property_lines := lines.filter
    (fun l => containsSub ": ".data l && !pyStartsWith l "Properties:".data)
  if property_lines.isEmpty then none
  else
    let body := property_lines.foldl
      (fun acc line =>
        match pySplitOnce ": ".data line with
        | none => acc       -- unreachable: the filter guarantees ": " occurs
        | some (n, v) =>
          let prop_name := pyStrip n
          let prop_value := pyStrip v
          let fm_name :=
            match NOTION_PROPERTY_TO_FRONTMATTER.find?
                (fun e => e.1.data = prop_name) with
            | some e => e.2.data
            | none => pyLower prop_name
          if pyStartsWith prop_value "[".data && pyEndsWith prop_value "]".data then
            acc ++ [fm_name ++ ":".data] ++
              ((pySplit ',' ((prop_value.drop 1).dropLast)).map
                (fun x => "  - ".data ++ pyStrip x))
          else acc ++ [fm_name ++ ": ".data ++ prop_value])
      []
    some (pyJoin '\n' (["---".data] ++ body ++ ["---".data]))

/-- One `pattern.subn(repl, result)` step of `optimize_content`: the result
is kept and the named stat recorded only when the count is positive. -/
def subStep (pat : RFlags × RE) (tpl : List RTok) (name : String)
    (acc : List Char × PyDict) : List Char × PyDict :=
  let (newC, n) := reSubn pat.1 pat.2 tpl acc.1
  if n > 0 then (newC, pdSet acc.2 name (.int (n : Int))) else acc

set_option maxHeartbeats 1000000 in
/-- `NotionHelper.optimize_content(content, file_path)`.  The guards
`'SUBSCRIPTION_FORM_PATTERN' in globals()`, `'ENHANCED_FORM_CONTENT_PATTERN'
in globals()` and `'DUPLICATE_HEADING_PATTERN' in globals()` are all False -
none of these names is defined in notion_helper.py - so those three branches
never run and are omitted.  The callout and toggle branches run only when
the corresponding `preserve_*` option is off; with the constructor defaults
they are skipped, and this embedding covers the default configuration
(`preserve_callouts = preserve_toggles = True`). -/
def optimize_content (cfg : NotionConfig) (st : NotionStats)
    (content : List Char) : (List Char × PyDict) × NotionStats :=
  if content.isEmpty then ((content, []), st)
  else
    let acc0 : List Char × PyDict := (content, [])
    let acc1 := subStep NOTION_DIVIDERS_PATTERN [.str "\n".data] "Notion Dividers" acc0
    let acc2 := subStep NOTION_TIMESTAMPS_PATTERN [] "Notion Timestamps" acc1
    let acc3 := subStep NOTION_URL_PATTERN [] "Notion URLs" acc2
    let acc4 := subStep NOTION_COMMENTS_PATTERN [.gref 1] "Notion Comments" acc3
    let acc5 := subStep NOTION_CITATIONS_PATTERN
      [.str "[".data, .gref 1, .str "]".data] "Notion Citations" acc4
    -- Properties: -> YAML frontmatter
    let propStep : (List Char × PyDict) × NotionStats :=
      if cfg.convert_properties then
        match reSearch NOTION_PROPERTIES_PATTERN.1 NOTION_PROPERTIES_PATTERN.2 acc5.1 with
        | some m =>
          match convert_properties_to_frontmatter m.matched with
          | some fm =>
            ((
              (reSubn NOTION_PROPERTIES_PATTERN.1 NOTION_PROPERTIES_PATTERN.2
                [.str (fm ++ "\n\n".data)] acc5.1).1,
              pdSet acc5.2 "Notion Properties" (.int 1)),
             { st with properties_converted := st.properties_converted + 1 })
          | none => (acc5, st)
        | none => (acc5, st)
      else (acc5, st)
    propStep

/-- `NotionHelper.postprocess_content(content, file_path)`: strip, then
collapse newline runs. -/
def postprocess_content (content : List Char) : List Char :=
  if content.isEmpty then content
  else collapseNewlines (pyStrip content)

end notion_helper

/-! ## `content_helpers/email_helper.py` (detection and postprocess) -/

namespace email_helper

/-- The `self.stats` counters of `EmailHelper`. -/
structure EmailStats where
  files_processed : Int := 0
  optimizations_applied : Int := 0
  duplicates_removed : Int := 0
  duplicate_headings_removed : Int := 0
  forms_removed : Int := 0
  headers_removed : Int := 0
  quotes_removed : Int := 0
  signatures_removed : Int := 0
  disclaimers_removed : Int := 0
  footers_removed : Int := 0
  threads_processed : Int := 0
deriving Repr, DecidableEq

/-- `^(?:From|To|Subject|Date|Cc|Bcc|Reply-To|Sender|Message-ID):\s.*?$`, MULTILINE. -/
def EMAIL_HEADER_PATTERN : RFlags × RE :=
  ({ ml := true },
   rcat [.bol, ralts [rS "From", rS "To", rS "Subject", rS "Date", rS "Cc",
                      rS "Bcc", rS "Reply-To", rS "Sender", rS "Message-ID"],
         rC ':', rSp, rStarL rDot, .eol])

/-- `(?:^>.*?$(?:\n|$))+`, MULTILINE. -/
def EMAIL_QUOTE_PATTERN : RFlags × RE :=
  ({ ml := true },
   rPlus (rcat [.bol, rC '>', rStarL rDot, .eol, ralts [rC '\n', .eol]]))

/-- `(?:^--+\s*$\n)(?:.+\n)*(?:.*?@.*?\n)?(?:.*?(?:T|t)el[:\.].*?\n)?(?:.*?(?:www|http).*?\n)?`, MULTILINE. -/
def EMAIL_SIGNATURE_PATTERN : RFlags × RE :=
  ({ ml := true },
   rcat [.bol, rC '-', rPlus (rC '-'), rStar rSp, .eol, rC '\n',
         rStar (rcat [rPlus rDot, rC '\n']),
         rOpt (rcat [rAnyL, rC '@', rAnyL, rC '\n']),
         rOpt (rcat [rAnyL, rCls [iC 'T', iC 't'], rS "el",
                     rCls [iC ':', iC '.'], rAnyL, rC '\n']),
         rOpt (rcat [rAnyL, ralts [rS "www", rS "http"], rAnyL, rC '\n'])])

/-- `(?:DISCLAIMER|CONFIDENTIAL|LEGAL\s+NOTICE).*?(?=\n\n|\Z)`, IGNORECASE | DOTALL. -/
def EMAIL_DISCLAIMER_PATTERN : RFlags × RE :=
  ({ ic := true, da := true },
   rcat [ralts [rS "DISCLAIMER", rS "CONFIDENTIAL",
                rcat [rS "LEGAL", rPlus rSp, rS "NOTICE"]],
         rAnyL, .la false (ralts [rS "\n\n", .eos])])

/-- `^-{3,}\s*(?:Forwarded|Original)\s+(?:message|Message).*?$`, MULTILINE. -/
def EMAIL_FORWARDED_PATTERN : RFlags × RE :=
  ({ ml := true },
   rcat [.bol, rRep 3 none (rC '-'), rStar rSp,
         ralts [rS "Forwarded", rS "Original"], rPlus rSp,
         ralts [rS "message", rS "Message"], rStarL rDot, .eol])

/-- `(?:\n\n.*?[Ss]ent from my (?:iPhone|iPad|Android|Samsung|mobile).*?|\n\n.*?[Ss]ent via .*?$)`, MULTILINE. -/
def EMAIL_FOOTER_PATTERN : RFlags × RE :=
  ({ ml := true },
   ralts [rcat [rS "\n\n", rAnyL, rCls [iC 'S', iC 's'], rS "ent from my ",
                ralts [rS "iPhone", rS "iPad", rS "Android", rS "Samsung",
                       rS "mobile"], rAnyL],
          rcat [rS "\n\n", rAnyL, rCls [iC 'S', iC 's'], rS "ent via ",
                rStarL rDot, .eol]])

/-- `EmailHelper.detect_content_type(file_path, content)`.  A `None` path
raises `AttributeError` at `file_path.lower()`. -/
def detect_content_type (st : EmailStats) (fs : Option String)
    (file_path : Option String) (content : Option String) :
    Except PyErr ℚ × EmailStats :=
  match file_path with
  | none => (.error "AttributeError: NoneType object has no attribute lower", st)
  | some fp =>
    let fpl := pyLower fp.data
    if pyEndsWith fpl ".eml".data || pyEndsWith fpl ".msg".data then
      (.ok 0.8, st)
    else
      let sample : Option (List Char) := match content with
        | some c => some c.data
        | none => fs.map (·.data)
      match sample with
      | none => (.ok 0, st)
      | some cd =>
        let header_matches :=
          reCountMatches EMAIL_HEADER_PATTERN.1 EMAIL_HEADER_PATTERN.2 cd
        let conf : ℚ :=
          (if header_matches ≥ 3 then 0.6
           else if header_matches > 0 then 0.3 else 0) +
          (if reHasMatch EMAIL_QUOTE_PATTERN.1 EMAIL_QUOTE_PATTERN.2 cd
            then 0.3 else 0) +
          (if reHasMatch EMAIL_SIGNATURE_PATTERN.1 EMAIL_SIGNATURE_PATTERN.2 cd
            then 0.2 else 0) +
          (if reHasMatch EMAIL_FORWARDED_PATTERN.1 EMAIL_FORWARDED_PATTERN.2 cd
            then 0.4 else 0) +
          (if reHasMatch EMAIL_FOOTER_PATTERN.1 EMAIL_FOOTER_PATTERN.2 cd
            then 0.3 else 0)
        (.ok (min conf 1), st)

/-- `EmailHelper.postprocess_content(content, file_path)`. -/
def postprocess_content (content : List Char) : List Char :=
  if content.isEmpty then content
  else collapseNewlines (pyStrip content)

end email_helper

/-! ## `content_helpers/code_helper.py` (detection and postprocess) -/

namespace code_helper

/-- The `self.stats` counters of `CodeHelper` (`detected_languages` is the
per-language defaultdict). -/
structure CodeStats where
  files_processed : Int := 0
  optimizations_applied : Int := 0
  duplicates_removed : Int := 0
  duplicate_headings_removed : Int := 0
  forms_removed : Int := 0
  boilerplate_removed : Int := 0
  logs_removed : Int := 0
  detected_languages : List (String × Int) := []
deriving Repr, DecidableEq

/-- `EXTENSION_TO_LANGUAGE`. -/
def EXTENSION_TO_LANGUAGE : List (String × String) :=
  [(".py", "python"), (".js", "javascript"), (".ts", "typescript"),
   (".jsx", "javascript"), (".tsx", "typescript"), (".java", "java"),
   (".cs", "csharp"), (".cpp", "cpp"), (".c", "c"), (".go", "go"),
   (".rs", "rust"), (".rb", "ruby"), (".php", "php"), (".swift", "swift"),
   (".kt", "kotlin"), (".scala", "scala")]

/-- `pathlib.Path(p).suffix`: the final `.ext` of the basename; empty for
names with no dot, a leading dot only, or a trailing dot. -/
def pathSuffix (p : List Char) : List Char :=
  let name := notion_helper.osBasename p
  let revExt := name.reverse.takeWhile (fun c => c ≠ '.')
  let pre := name.reverse.dropWhile (fun c => c ≠ '.')
  match pre with
  | [] => []                       -- no dot at all
  | _ :: rest =>
    if rest.isEmpty then []        -- the only dot is the leading character
    else if revExt.isEmpty then [] -- trailing dot
    else '.' :: revExt.reverse

/-- `^(?:import|from|#include|using|require|package)\s+`, MULTILINE. -/
def code_import_probe : RFlags × RE :=
  ({ ml := true },
   rcat [.bol, ralts [rS "import", rS "from", rS "#include", rS "using",
                      rS "require", rS "package"], rPlus rSp])

/-- `(?:function|def|class|interface|struct|module)\s+\w+`. -/
def code_def_probe : RFlags × RE :=
  ({},
   rcat [ralts [rS "function", rS "def", rS "class", rS "interface",
                rS "struct", rS "module"], rPlus rSp, rPlus rW])

/-- `(?:var|let|const|int|float|double|string|boolean)\s+\w+\s*=`. -/
def code_var_probe : RFlags × RE :=
  ({},
   rcat [ralts [rS "var", rS "let", rS "const", rS "int", rS "float",
                rS "double", rS "string", rS "boolean"],
         rPlus rSp, rPlus rW, rStar rSp, rC '='])

/-- `(?:if|for|while|switch|case)\s*\(`. -/
def code_flow_probe : RFlags × RE :=
  ({},
   rcat [ralts [rS "if", rS "for", rS "while", rS "switch", rS "case"],
         rStar rSp, rC '('])

/-- `(?://|#|/\*|\*/).*?(?:TODO|FIXME|HACK|NOTE)`. -/
def code_todo_probe : RFlags × RE :=
  ({},
   rcat [ralts [rS "//", rS "#", rS "/*", rS "*/"], rAnyL,
         ralts [rS "TODO", rS "FIXME", rS "HACK", rS "NOTE"]])

/-- `CodeHelper.detect_content_type(file_path, content)`.  A `None` path
raises `TypeError` at `Path(file_path)`.  `pygmentsAvailable` models the
`PYGMENTS_AVAILABLE` import guard and `pygmentsGuess` the external
`guess_lexer` oracle (`none` = `ClassNotFound`, otherwise whether the
guessed lexer name contains one of the strong code-lexer names). -/
def detect_content_type (st : CodeStats) (pygmentsAvailable : Bool)
    (pygmentsGuess : Option Bool) (fs : Option String)
    (file_path : Option String) (content : Option String) :
    Except PyErr ℚ × CodeStats :=
  match file_path with
  | none => (.error "TypeError: argument should be a str or an os.PathLike object, not NoneType", st)
  | some fp =>
    let ext := pathSuffix (pyLower fp.data)
    if EXTENSION_TO_LANGUAGE.any (fun e => e.1.data = ext) then
      (.ok 0.8, st)   -- min(0.0 + 0.8, 1.0), strong indicator
    else
      let sample : Option (List Char) := match content with
        | some c => some c.data
        | none => fs.map (·.data)
      match sample with
      | none => (.ok 0, st)
      | some cd =>
        let conf : ℚ :=
          (if pygmentsAvailable then
            match pygmentsGuess with
            | some true => 0.7
            | some false => 0.3
            | none => 0
           else 0) +
          (if reHasMatch code_import_probe.1 code_import_probe.2 cd then 0.4 else 0) +
          (if reHasMatch code_def_probe.1 code_def_probe.2 cd then 0.5 else 0) +
          (if reHasMatch code_var_probe.1 code_var_probe.2 cd then 0.3 else 0) +
          (if reHasMatch code_flow_probe.1 code_flow_probe.2 cd then 0.3 else 0) +
          (if reHasMatch code_todo_probe.1 code_todo_probe.2 cd then 0.2 else 0)
        (.ok (min conf 1), st)

/-- `CodeHelper.postprocess_content(content, file_path)`: no blank-line
handling, only `content.rstrip('\n') + '\n'`. -/
def postprocess_content (content : List Char) : List Char :=
  if content.isEmpty then content
  else pyRStripChar '\n' content ++ ['\n']

end code_helper

/-! ## `content_helpers/docs_helper.py` -/

namespace docs_helper

/-- The `self.stats` counters of `DocsHelper`. -/
structure DocsStats where
  files_processed : Int := 0
  optimizations_applied : Int := 0
  duplicates_removed : Int := 0
  duplicate_headings_removed : Int := 0
  forms_removed : Int := 0
  headers_found : Int := 0
  code_blocks_found : Int := 0
  tables_found : Int := 0
  toc_removed : Int := 0
  breadcrumbs_removed : Int := 0
  edit_info_removed : Int := 0
  version_info_removed : Int := 0
deriving Repr, DecidableEq

/-- Constructor configuration with the `__init__` defaults. -/
structure DocsConfig where
  preserve_toc : Bool := true
  preserve_breadcrumbs : Bool := false
  preserve_edit_info : Bool := false
  preserve_version_info : Bool := true
deriving Repr

/-- `^#+\s+(.*?)$`, MULTILINE. -/
def DOC_HEADER_PATTERN : RFlags × RE :=
  ({ ml := true },
   rcat [.bol, rPlus (rC '#'), rPlus rSp, .grp 1 (rStarL rDot), .eol])

/-- ```` ```[\w]*\n.*?``` ````, DOTALL. -/
def DOC_CODE_BLOCK_PATTERN : RFlags × RE :=
  ({ da := true },
   rcat [rS "```", rStar rW, rC '\n', rAnyL, rS "```"])

/-- `^\|.*\|$(?:\n\|[-:| ]+\|$)?(?:\n\|.*\|$)*`, MULTILINE. -/
def DOC_TABLE_PATTERN : RFlags × RE :=
  ({ ml := true },
   rcat [.bol, rC '|', rStar rDot, rC '|', .eol,
         rOpt (rcat [rC '\n', rC '|', rPlus (rCls [iC '-', iC ':', iC '|', iC ' ']),
                     rC '|', .eol]),
         rStar (rcat [rC '\n', rC '|', rStar rDot, rC '|', .eol])])

/-- `^(?:Home|Index|Main)(?:\s+[>→←/|])+.*?$`, MULTILINE. -/
def DOC_NAV_BREADCRUMB : RFlags × RE :=
  ({ ml := true },
   rcat [.bol, ralts [rS "Home", rS "Index", rS "Main"],
         rPlus (rcat [rPlus rSp, rCls [iC '>', iC '→', iC '←', iC '/', iC '|']]),
         rStarL rDot, .eol])

/-- `^(?:Version|v|Release):\s+\d+\.\d+(?:\.\d+)?.*?$`, MULTILINE. -/
def DOC_VERSION_BANNER : RFlags × RE :=
  ({ ml := true },
   rcat [.bol, ralts [rS "Version", rS "v", rS "Release"], rC ':', rPlus rSp,
         rPlus rD, rC '.', rPlus rD, rOpt (rcat [rC '.', rPlus rD]),
         rStarL rDot, .eol])

/-- `^(?:Last updated|Last modified|Updated on):\s+.*?$`, MULTILINE. -/
def DOC_EDIT_BANNER : RFlags × RE :=
  ({ ml := true },
   rcat [.bol, ralts [rS "Last updated", rS "Last modified", rS "Updated on"],
         rC ':', rPlus rSp, rStarL rDot, .eol])

/-- `(?:Table of Contents|Contents|TOC|On this page)[\s\n]*(?:\*\s+\[.*?\]\(.*?\)[\s\n]*)+`, IGNORECASE. -/
def DOC_TOC_SECTION : RFlags × RE :=
  ({ ic := true },
   rcat [ralts [rS "Table of Contents", rS "Contents", rS "TOC", rS "On this page"],
         rStar rSp,
         rPlus (rcat [rC '*', rPlus rSp, rC '[', rAnyL, rC ']', rC '(', rAnyL,
                      rC ')', rStar rSp])])

/-- The inline probe `^(#+)\s+`, MULTILINE (header level hierarchy). -/
def doc_header_level_probe : RFlags × RE :=
  ({ ml := true }, rcat [.bol, .grp 1 (rPlus (rC '#')), rPlus rSp])

/-- The inline probe `\*\*.*?\*\*|\*.*?\*|__.*?__|_.*?_|\[.*?\]\(.*?\)`. -/
def doc_inline_format_probe : RFlags × RE :=
  ({},
   ralts [rcat [rS "**", rAnyL, rS "**"],
          rcat [rC '*', rAnyL, rC '*'],
          rcat [rS "__", rAnyL, rS "__"],
          rcat [rC '_', rAnyL, rC '_'],
          rcat [rC '[', rAnyL, rC ']', rC '(', rAnyL, rC ')']])

/-- The inline probe `^(?:[*+-]|\d+\.)\s+`, MULTILINE. -/
def doc_list_item_probe : RFlags × RE :=
  ({ ml := true },
   rcat [.bol, ralts [rCls [iC '*', iC '+', iC '-'], rcat [rPlus rD, rC '.']],
         rPlus rSp])

/-- `pathlib.Path(p).stem`: the basename without its final suffix. -/
def pathStem (p : List Char) : List Char :=
  let name := notion_helper.osBasename p
  name.take (name.length - (code_helper.pathSuffix name).length)

/-- The documentation-file basenames that boost confidence. -/
def docBasenames : List String :=
  ["readme", "guide", "tutorial", "manual", "introduction",
   "getting-started", "docs", "documentation", "reference",
   "handbook", "specification", "api", "help"]

/-- `DocsHelper.detect_content_type(file_path, content)`.  A `None` path
raises `TypeError` at `Path(file_path)`; an unreadable file yields 0.0 even
when the extension already matched. -/
def detect_content_type (st : DocsStats) (fs : Option String)
    (file_path : Option String) (content : Option String) :
    Except PyErr ℚ × DocsStats :=
  match file_path with
  | none => (.error "TypeError: argument should be a str or an os.PathLike object, not NoneType", st)
  | some fp =>
    let ext := code_helper.pathSuffix (pyLower fp.data)
    let extHit := [".md", ".rst", ".txt", ".adoc", ".asciidoc"].any
      (fun e => e.data = ext)
    let base0 : ℚ := if extHit then 0.6 else 0
    if extHit && docBasenames.any (fun b => b.data = pyLower (pathStem fp.data)) then
      (.ok (min (base0 + 0.3) 1), st)
    else
      let sample : Option (List Char) := match content with
        | some c => some c.data
        | none => fs.map (·.data)
      match sample with
      | none => (.ok 0, st)
      | some cd =>
        let headers := reFindIter DOC_HEADER_PATTERN.1 DOC_HEADER_PATTERN.2 cd
        let levels := ((reFindIter doc_header_level_probe.1
          doc_header_level_probe.2 cd).map
            (fun m => (capsGet m.caps 1).getD [])).dedup
        let conf : ℚ := base0 +
          (if !headers.isEmpty then
            0.3 + (if levels.length > 1 then 0.2 else 0) else 0) +
          (if reHasMatch DOC_CODE_BLOCK_PATTERN.1 DOC_CODE_BLOCK_PATTERN.2 cd
            then 0.2 else 0) +
          (if reHasMatch DOC_TABLE_PATTERN.1 DOC_TABLE_PATTERN.2 cd
            then 0.2 else 0) +
          (if reHasMatch DOC_TOC_SECTION.1 DOC_TOC_SECTION.2 cd
            then 0.3 else 0) +
          (if reHasMatch doc_inline_format_probe.1 doc_inline_format_probe.2 cd
            then 0.2 else 0) +
          (if reHasMatch doc_list_item_probe.1 doc_list_item_probe.2 cd
            then 0.2 else 0)
        (.ok (min conf 1), st)

/-- The dict returned by `DocsHelper.preprocess_content`. -/
structure DocsPre where
  content : List Char
  headers : List (List Char)
  code_blocks : List (List Char)
  tables : List (List Char)
deriving Repr

/-- `DocsHelper.preprocess_content(content, file_path)`. -/
def preprocess_content (st : DocsStats) (content : List Char) :
    DocsPre × DocsStats :=
  if content.isEmpty then
    ({ content := [], headers := [], code_blocks := [], tables := [] }, st)
  else
    let headers := (reFindIter DOC_HEADER_PATTERN.1 DOC_HEADER_PATTERN.2
      content).map (fun m => (capsGet m.caps 1).getD [])
    let code_blocks := (reFindIter DOC_CODE_BLOCK_PATTERN.1
      DOC_CODE_BLOCK_PATTERN.2 content).map (·.matched)
    let tables := (reFindIter DOC_TABLE_PATTERN.1 DOC_TABLE_PATTERN.2
      content).map (·.matched)
    ({ content := content, headers := headers, code_blocks := code_blocks,
       tables := tables },
     { st with
       headers_found := st.headers_found + headers.length,
       code_blocks_found := st.code_blocks_found + code_blocks.length,
       tables_found := st.tables_found + tables.length })

set_option maxHeartbeats 1000000 in
/-- `DocsHelper.optimize_content(content_data, file_path)`.  The guards
`'DUPLICATE_HEADING_PATTERN' in globals()` and
`'ENHANCED_FORM_CONTENT_PATTERN' in globals()` are both False - neither
name is defined in docs_helper.py - so those two branches never run and are
omitted. -/
def optimize_content (cfg : DocsConfig) (st : DocsStats) (data : DocsPre) :
    (List Char × PyDict) × DocsStats :=
  let content := data.content
  if content.isEmpty then ((content, []), st)
  else
    -- park code blocks behind __CODE_BLOCK_i__ placeholders
    let phs := data.code_blocks.enum.map
      (fun ib => (("__CODE_BLOCK_" ++ toString ib.1 ++ "__").data, ib.2))
    let r0 := phs.foldl (fun acc pb => pyReplace acc pb.2 pb.1) content
    -- table of contents (preserve_toc defaults to True)
    let tocStep : (List Char × PyDict) × DocsStats :=
      if !cfg.preserve_toc then
        let (newC, n) := reSubn DOC_TOC_SECTION.1 DOC_TOC_SECTION.2 [] r0
        if n > 0 then
          ((newC, pdSet [] "Doc TOC Removed" (.int (n : Int))),
           { st with toc_removed := st.toc_removed + (n : Int) })
        else ((r0, []), st)
      else ((r0, []), st)
    -- navigation breadcrumbs (preserve_breadcrumbs defaults to False)
    let bcStep : (List Char × PyDict) × DocsStats :=
      if !cfg.preserve_breadcrumbs then
        let (newC, n) := reSubn DOC_NAV_BREADCRUMB.1 DOC_NAV_BREADCRUMB.2 []
          tocStep.1.1
        if n > 0 then
          ((newC, pdSet tocStep.1.2 "Doc Breadcrumbs Removed" (.int (n : Int))),
           { tocStep.2 with
             breadcrumbs_removed := tocStep.2.breadcrumbs_removed + (n : Int) })
        else tocStep
      else tocStep
    -- edit information (preserve_edit_info defaults to False)
    let editStep : (List Char × PyDict) × DocsStats :=
      if !cfg.preserve_edit_info then
        let (newC, n) := reSubn DOC_EDIT_BANNER.1 DOC_EDIT_BANNER.2 [] bcStep.1.1
        if n > 0 then
          ((newC, pdSet bcStep.1.2 "Doc Edit Info Removed" (.int (n : Int))),
           { bcStep.2 with
             edit_info_removed := bcStep.2.edit_info_removed + (n : Int) })
        else bcStep
      else bcStep
    -- version information (preserve_version_info defaults to True)
    let verStep : (List Char × PyDict) × DocsStats :=
      if !cfg.preserve_version_info then
        let (newC, n) := reSubn DOC_VERSION_BANNER.1 DOC_VERSION_BANNER.2 []
          editStep.1.1
        if n > 0 then
          ((newC, pdSet editStep.1.2 "Doc Version Info Removed" (.int (n : Int))),
           { editStep.2 with
             version_info_removed := editStep.2.version_info_removed + (n : Int) })
        else editStep
      else editStep
    -- restore code blocks from placeholders (dict insertion order)
    let restored := phs.foldl (fun acc pb => pyReplace acc pb.1 pb.2) verStep.1.1
    ((restored, verStep.1.2), verStep.2)

/-- `(^#+\s+.*?)(\n)(?!\n)` replaced by `\1\n\n`, MULTILINE (spacing after
headers). -/
def doc_header_spacing_pattern : RFlags × RE :=
  ({ ml := true },
   rcat [.grp 1 (rcat [.bol, rPlus (rC '#'), rPlus rSp, rStarL rDot]),
         .grp 2 (rC '\n'), .la true (rC '\n')])

/-- `DocsHelper.postprocess_content(content, file_path)`. -/
def postprocess_content (content : List Char) : List Char :=
  if content.isEmpty then content
  else
    let r := collapseNewlines (pyStrip content)
    (reSubn doc_header_spacing_pattern.1 doc_header_spacing_pattern.2
      [.gref 1, .str "\n\n".data] r).1

/-- The full Docs pipeline as `ContentHelperBase.process_file` runs it on
non-empty content: preprocess, optimize, postprocess (statistics threaded). -/
def docsPipeline (cfg : DocsConfig) (st : DocsStats) (content : List Char) :
    List Char × DocsStats :=
  let (pre, st1) := preprocess_content st content
  let ((optC, _), st2) := optimize_content cfg st1 pre
  (postprocess_content optC, st2)

end docs_helper

/-! ## `content_helpers/unified_optimizer.py` -/

namespace unified_optimizer

/-- The dispatcher run-level statistics (`self.stats`).  `size_increases`
and `reverted_optimizations` are created on demand with
`self.stats.get(key, 0) + 1`; they are modelled as counters starting at 0. -/
structure UOStats where
  files_processed : Int := 0
  auto_detected : Int := 0
  detection_failures : Int := 0
  processing_time : ℚ := 0
  detected_types : List (String × Int) := []
  errors : List String := []
  size_increases : Int := 0
  reverted_optimizations : Int := 0
deriving Repr

/-- `defaultdict(int)` increment for the `detected_types` histogram. -/
def bumpType (l : List (String × Int)) (k : String) : List (String × Int) :=
  if (l.find? (fun e => e.1 = k)).isSome then
    l.map (fun e => if e.1 = k then (e.1, e.2 + 1) else e)
  else l ++ [(k, 1)]

/-- The statistics of the five lazily cached helper instances. -/
structure HelperStates where
  notion : notion_helper.NotionStats := {}
  email : email_helper.EmailStats := {}
  code : code_helper.CodeStats := {}
  docs : docs_helper.DocsStats := {}
  markdown : markdown_helper.MdStats := {}
deriving Repr

/-- Python `max(scores, key=scores.get)` over a dict built in insertion
order: the first key attaining the maximum wins. -/
def argmaxFirst (l : List (String × ℚ)) : String × ℚ :=
  match l with
  | [] => ("", 0)
  | h :: t => t.foldl (fun best x => if x.2 > best.2 then x else best) h

/-- `UnifiedOptimizer.detect_content_type(file_path, content)`.

`isfile`/`readSample` model `os.path.isfile` and the 8KB sample read
(`none` = read failure); the same sample also serves the helpers that read
the file themselves during their probe.  `pygmentsAvailable`/`pygmentsGuess`
are the Code helper oracle.  Returns the `(content_type, confidence)` pair
plus the helper statistics and dispatcher statistics after the call. -/
def detect_content_type (default_mode : String)
    (pygmentsAvailable : Bool) (pygmentsGuess : Option Bool)
    (hs : HelperStates) (uo : UOStats) (isfile : Bool)
    (readSample : Option String) (file_path : String)
    (content : Option String) :
    (String × ℚ) × HelperStates × UOStats :=
  match content, isfile with
  | none, true =>
    (match readSample with
     | none =>
       ((default_mode, 0),
        hs,
        { uo with errors := uo.errors ++
            ["Error reading " ++ file_path ++ ": unreadable file"] })
     | some sample => go hs uo (some sample) readSample)
  | _, _ => go hs uo content readSample
where
  /-- Probe the five helpers in the fixed order `notion, email, code, docs,
  markdown`; a probe exception becomes score 0.0 plus a dispatcher error
  entry. -/
  go (hs : HelperStates) (uo : UOStats) (content : Option String)
      (readSample : Option String) :
      (String × ℚ) × HelperStates × UOStats :=
    let fp := some file_path
    let nR := notion_helper.detect_content_type hs.notion readSample fp content
    let eR := email_helper.detect_content_type hs.email readSample fp content
    let cR := code_helper.detect_content_type hs.code pygmentsAvailable
      pygmentsGuess readSample fp content
    let dR := docs_helper.detect_content_type hs.docs readSample fp content
    let mR := markdown_helper.detect_content_type hs.markdown fp content
    let hs' : HelperStates :=
      { notion := nR.2, email := eR.2, code := cR.2, docs := dR.2,
        markdown := mR.2 }
    let score := fun (ty : String) (r : Except PyErr ℚ) (acc : UOStats) =>
      match r with
      | .ok q => (q, acc)
      | .error e =>
        ((0 : ℚ),
         { acc with errors := acc.errors ++
             ["Error in " ++ ty ++ " detection for " ++ file_path ++ ": " ++ e] })
    let (qn, uo1) := score "notion" nR.1 uo
    let (qe, uo2) := score "email" eR.1 uo1
    let (qc, uo3) := score "code" cR.1 uo2
    let (qd, uo4) := score "docs" dR.1 uo3
    let (qm, uo5) := score "markdown" mR.1 uo4
    let scores := [("notion", qn), ("email", qe), ("code", qc),
                   ("docs", qd), ("markdown", qm)]
    let best := argmaxFirst scores
    if best.2 < 0.3 then ((default_mode, best.2), hs', uo5)
    else (best, hs', uo5)

/-- Truthiness of `opt_stats.get("reverted_to_original", False)`. -/
def pyTruthy : PyVal → Bool
  | .int n => n ≠ 0
  | .str s => s ≠ ""
  | .bool b => b
  | .rat q => q ≠ 0
  | .dict d => !d.isEmpty
  | .pynone => false

set_option maxHeartbeats 1000000 in
/-- `UnifiedOptimizer.optimize_file(file_path, content, force_mode)`.

The selected helper is an argument `helperProcess` mapping
`(content_type, file_path, content)` to its `process_file` outcome (an
exception, or content - possibly `None` - plus stats); `detection` is the
already-embedded `detect_content_type` outcome for this file (its internals
are `unified_optimizer.detect_content_type` above); `elapsed` models the
wall-clock duration, and `pathValid`/`isfile`/`readFull` the file system.
The dispatcher-level size check compares against `original_length * 1.05`
(the float literal 1.05 is modelled as the rational 21/20, which agrees
with the double for any realistic length).  Returns the
`(optimized_content, result_stats)` pair - `none` standing for Python
`None` - and the updated dispatcher statistics. -/
def optimize_file
    (helperProcess : String → String → Option String →
      Except PyErr (Option String × PyDict))
    (detection : String × ℚ) (elapsed : ℚ)
    (pathValid : Bool) (isfile : Bool) (readFull : Option String)
    (uo : UOStats) (file_path : String) (content0 : Option String)
    (force_mode : Option String) :
    (Option String × PyDict) × UOStats :=
  if !pathValid then
    ((some "", [("error", .str ("Invalid file path: " ++ file_path))]),
     { uo with errors := uo.errors ++ ["Invalid file path: " ++ file_path] })
  else
    match content0, isfile with
    | none, true =>
      (match readFull with
       | none =>
         ((none, [("error", .str "unreadable file")]),
          { uo with errors := uo.errors ++
              ["Error reading " ++ file_path ++ ": unreadable file"] })
       | some c => go uo (some c))
    | _, _ => go uo content0
where
  go (uo : UOStats) (content : Option String) :
      (Option String × PyDict) × UOStats :=
    let original_length : Nat := match content with
      | some c => c.length
      | none => 0
    -- detection (forced or auto)
    let det : PyDict × String × UOStats :=
      match force_mode with
      | some m =>
        ([("detection", .dict [("mode", .str "forced"), ("type", .str m)])],
         m, uo)
      | none =>
        ([("detection", .dict [("mode", .str "auto"),
            ("type", .str detection.1), ("confidence", .rat detection.2)])],
         detection.1,
         { uo with
           detected_types := bumpType uo.detected_types detection.1,
           auto_detected := uo.auto_detected + 1 })
    let result_stats0 := det.1
    let content_type := det.2.1
    let uo1 := det.2.2
    match content with
    | none =>
      ((some "", [("empty_file", .int 1)]),
       { uo1 with files_processed := uo1.files_processed + 1 })
    | some c =>
      if c = "" then
        ((some "", [("empty_file", .int 1)]),
         { uo1 with files_processed := uo1.files_processed + 1 })
      else
        match helperProcess content_type file_path (some c) with
        | .error e =>
          let msg := "Error processing " ++ file_path ++ " with " ++
            content_type ++ " helper: " ++ e
          ((some c, [("error", .str msg)]),
           { uo1 with
             errors := uo1.errors ++ [msg],
             detection_failures := uo1.detection_failures + 1 })
        | .ok (optimized0, opt_stats) =>
          let uo2 := { uo1 with
            files_processed := uo1.files_processed + 1,
            processing_time := uo1.processing_time + elapsed }
          let sizeFlagged :=
            (pdGet opt_stats "size_increased").isSome &&
            pyTruthy ((pdGet opt_stats "reverted_to_original").getD (.bool false))
          let uo3 := if sizeFlagged then
              { uo2 with size_increases := uo2.size_increases + 1 }
            else uo2
          let result_stats1 := if sizeFlagged then
              pdSet (pdSet result_stats0 "size_increased"
                ((pdGet opt_stats "size_increased").getD .pynone))
                "reverted_to_original" (.bool true)
            else result_stats0
          let result_stats2 := pdSet (pdUpdate result_stats1 opt_stats)
            "processing_time" (.rat elapsed)
          let fin : String × PyDict := match optimized0 with
            | none => ("", pdSet result_stats2 "error"
                (.str "Helper returned None content"))
            | some o => (o, result_stats2)
          let optimized := fin.1
          let result_stats3 := fin.2
          if (optimized.length : ℚ) > (original_length : ℚ) * 1.05 then
            ((some c,
              pdSet (pdSet result_stats3 "size_increased"
                (.int ((optimized.length : Int) - (original_length : Int))))
                "reverted_to_original" (.bool true)),
             { uo3 with
               reverted_optimizations := uo3.reverted_optimizations + 1 })
          else ((some optimized, result_stats3), uo3)

end unified_optimizer

/-! ## Support lemmas -/

theorem pdGet_cons (e : String × PyVal) (d : PyDict) (k : String) :
    pdGet (e :: d) k = if e.1 = k then some e.2 else pdGet d k := by
  unfold pdGet
  by_cases h : e.1 = k
  · rw [List.find?_cons_of_pos _ (by simp [h]), if_pos h]
    rfl
  · rw [List.find?_cons_of_neg _ (by simp [h]), if_neg h]

theorem find?_map_replace (k k' : String) (v : PyVal) (hkk : k' ≠ k) (d : PyDict) :
    (d.map (fun e => if e.1 = k then (k, v) else e)).find?
        (fun e => e.1 = k') =
      d.find? (fun e => e.1 = k') := by
  induction d with
  | nil => rfl
  | cons hd tl ih =>
    by_cases h : hd.1 = k
    · rw [List.map_cons, if_pos h,
        List.find?_cons_of_neg _ (by simp; exact fun hh => hkk hh.symm),
        List.find?_cons_of_neg _
          (by simp; rw [h]; exact fun hh => hkk hh.symm)]
      exact ih
    · rw [List.map_cons, if_neg h]
      by_cases h2 : hd.1 = k'
      · rw [List.find?_cons_of_pos _ (by simp [h2]),
          List.find?_cons_of_pos _ (by simp [h2])]
      · rw [List.find?_cons_of_neg _ (by simp [h2]),
          List.find?_cons_of_neg _ (by simp [h2])]
        exact ih

/-- The one fact about Python dict assignment the proofs need: after
`d[k] = v`, looking up `k` gives `v` and every other key is unchanged. -/
theorem pdGet_pdSet (d : PyDict) (k k' : String) (v : PyVal) :
    pdGet (pdSet d k v) k' = if k' = k then some v else pdGet d k' := by
  unfold pdSet
  by_cases hf : (d.find? (fun e => e.1 = k)).isSome
  · rw [if_pos hf]
    by_cases hkk : k' = k
    · subst hkk
      rw [if_pos rfl]
      induction d with
      | nil => simp at hf
      | cons hd tl ih =>
        by_cases h : hd.1 = k'
        · rw [List.map_cons, if_pos h, pdGet_cons, if_pos rfl]
        · rw [List.map_cons, if_neg h, pdGet_cons, if_neg h]
          apply ih
          rwa [List.find?_cons_of_neg _ (by simp [h])] at hf
    · rw [if_neg hkk]
      unfold pdGet
      rw [find?_map_replace k k' v hkk]
  · rw [if_neg hf]
    unfold pdGet
    rw [List.find?_append]
    by_cases hkk : k' = k
    · subst hkk
      have h0 : d.find? (fun e => decide (e.1 = k')) = none := by
        cases hfind : d.find? (fun e => decide (e.1 = k')) with
        | none => rfl
        | some x => exact absurd (by simp [hfind]) hf
      rw [h0, if_pos rfl]
      simp [List.find?]
    · have hne : ¬ ((k, v).1 = k') := fun hh => hkk hh.symm
      have h1 : List.find? (fun e => decide (e.1 = k')) [(k, v)] = none := by
        rw [List.find?_cons_of_neg _ (by simpa using hne)]
        rfl
      rw [h1, Option.or_none, if_neg hkk]

theorem pdGet_pdSet_self (d : PyDict) (k : String) (v : PyVal) :
    pdGet (pdSet d k v) k = some v := by
  rw [pdGet_pdSet, if_pos rfl]

theorem pdGet_pdSet_other (d : PyDict) (k k' : String) (v : PyVal)
    (hkk : k' ≠ k) : pdGet (pdSet d k v) k' = pdGet d k' := by
  rw [pdGet_pdSet, if_neg hkk]

/-- Every maximal run of consecutive newlines in the text has length at
most 2, given that `k` newlines immediately precede it. -/
def nlRunsLE2 : Nat → List Char → Bool
  | k, [] => decide (k ≤ 2)
  | k, c :: rest =>
    if c = '\n' then nlRunsLE2 (k + 1) rest
    else decide (k ≤ 2) && nlRunsLE2 0 rest

theorem nlRunsLE2_replicate (k m : Nat) :
    nlRunsLE2 k (List.replicate m '\n') = decide (k + m ≤ 2) := by
  induction m generalizing k with
  | zero => simp [nlRunsLE2]
  | succ n ih =>
    rw [List.replicate_succ]
    show nlRunsLE2 k ('\n' :: List.replicate n '\n') = _
    rw [nlRunsLE2, if_pos rfl, ih]
    have h : k + 1 + n = k + (n + 1) := by omega
    rw [h]

theorem nlRunsLE2_replicate_append (k m : Nat) (c : Char) (rest : List Char)
    (hc : ¬ c = '\n') :
    nlRunsLE2 k (List.replicate m '\n' ++ c :: rest) =
      (decide (k + m ≤ 2) && nlRunsLE2 0 rest) := by
  induction m generalizing k with
  | zero => simp [nlRunsLE2, hc]
  | succ n ih =>
    rw [List.replicate_succ, List.cons_append]
    show nlRunsLE2 k ('\n' :: (List.replicate n '\n' ++ c :: rest)) = _
    rw [nlRunsLE2, if_pos rfl, ih]
    have h : k + 1 + n = k + (n + 1) := by omega
    rw [h]

/-- After `collapseNLAux`, no run of three or more newlines remains. -/
theorem collapseNLAux_runs (l : List Char) : ∀ n,
    nlRunsLE2 0 (collapseNLAux n l) = true := by
  induction l with
  | nil =>
    intro n
    rw [collapseNLAux, nlRunsLE2_replicate]
    simp [Nat.min_le_left, Nat.le_trans (Nat.min_le_right n 2)]
  | cons c rest ih =>
    intro n
    rw [collapseNLAux]
    by_cases hc : c = '\n'
    · rw [if_pos hc]
      exact ih (n + 1)
    · rw [if_neg hc, nlRunsLE2_replicate_append _ _ _ _ hc, ih 0,
        Bool.and_true, decide_eq_true_eq]
      exact Nat.le_trans (Nat.le_refl _) (by omega)

theorem collapseNewlines_runs (l : List Char) :
    nlRunsLE2 0 (collapseNewlines l) = true :=
  collapseNLAux_runs l 0

/-- The number of trailing newline characters. -/
def trailingNL (s : List Char) : Nat :=
  (s.reverse.takeWhile (fun c => c = '\n')).length

theorem takeWhile_dropWhile_nil {α : Type} (p : α → Bool) (l : List α) :
    (l.dropWhile p).takeWhile p = [] := by
  induction l with
  | nil => rfl
  | cons a t ih =>
    rw [List.dropWhile_cons]
    by_cases h : p a
    · rw [if_pos h]
      exact ih
    · rw [if_neg h, List.takeWhile_cons, if_neg h]

theorem trailingNL_rstrip (s : List Char) :
    trailingNL (pyRStripChar '\n' s) = 0 := by
  unfold trailingNL pyRStripChar
  rw [List.reverse_reverse, takeWhile_dropWhile_nil]
  rfl

theorem trailingNL_append_newline (s : List Char) :
    trailingNL (pyRStripChar '\n' s ++ ['\n']) = 1 := by
  unfold trailingNL
  rw [List.reverse_append]
  show (('\n' :: (pyRStripChar '\n' s).reverse).takeWhile (fun c => c = '\n')).length = 1
  rw [List.takeWhile_cons, if_pos (by simp)]
  have h := trailingNL_rstrip s
  unfold trailingNL at h
  simp only [List.length_eq_zero] at h
  rw [List.length_cons, h]
  rfl

/-- `'/'.join` undoes `str.split('/')` (without any condition). -/
theorem pySplit_ne_nil (sep : Char) (l : List Char) : pySplit sep l ≠ [] := by
  induction l with
  | nil => simp [pySplit]
  | cons c rest ih =>
    rw [pySplit]
    by_cases h : c = sep
    · simp [h]
    · simp only [if_neg h]
      cases hr : pySplit sep rest with
      | nil => exact absurd hr ih
      | cons a b => simp

theorem pyJoin_pySplit (sep : Char) (l : List Char) :
    pyJoin sep (pySplit sep l) = l := by
  induction l with
  | nil => rfl
  | cons c rest ih =>
    rw [pySplit]
    by_cases h : c = sep
    · rw [if_pos h]
      cases hr : pySplit sep rest with
      | nil => exact absurd hr (pySplit_ne_nil sep rest)
      | cons a b =>
        rw [← hr]
        show pyJoin sep ([] :: pySplit sep rest) = c :: rest
        rw [hr]
        show [] ++ sep :: pyJoin sep (a :: b) = c :: rest
        rw [← hr, ih, h]
        rfl
    · rw [if_neg h]
      cases hr : pySplit sep rest with
      | nil => exact absurd hr (pySplit_ne_nil sep rest)
      | cons a b =>
        cases b with
        | nil =>
          show c :: a = c :: rest
          have : pyJoin sep (pySplit sep rest) = rest := ih
          rw [hr] at this
          simp only [pyJoin] at this
          rw [this]
        | cons b1 b2 =>
          show (c :: a) ++ sep :: pyJoin sep (b1 :: b2) = c :: rest
          have : pyJoin sep (pySplit sep rest) = rest := ih
          rw [hr] at this
          simp only [pyJoin] at this
          rw [List.cons_append, this]

/-! ## Claim theorems -/

set_option maxRecDepth 100000 in
/-- C1, counterexample.  `MarkdownHelper.process_file` (the override,
with the rules module importable) maps the 14-character content
`"LINK_0 [aa](b)"` to the 15-character result `"[aa](b) [aa](b)"` - the
preprocess placeholder `LINK_0` collides with text already present, so
restoration duplicates the link - and the returned stats carry neither
`reverted_to_original` nor `size_increased`: a strictly longer,
non-reverted result, refuting the claim for the Markdown helper. -/
theorem c1_markdown_inflates_without_revert :
    Except.map
      (fun r => (r.1, r.1.length, (pdGet r.2 "reverted_to_original").isNone,
                 (pdGet r.2 "size_increased").isNone))
      (markdown_helper.process_file true {} none {} (some "doc.txt")
        (some "LINK_0 [aa](b)")).1 =
      .ok ("[aa](b) [aa](b)", 15, true, true) ∧
    ("LINK_0 [aa](b)" : String).length = 14 := by
  exact ⟨by rfl, by rfl⟩

set_option maxRecDepth 100000 in
/-- C3 (code bug).  With `optimization_rules` not importable,
`MarkdownHelper.optimize_content` runs its `except ImportError` cleanup and
then still reads the never-assigned local `rule_trigger_stats`; the
resulting `NameError` propagates out of `MarkdownHelper.process_file` to
the caller instead of being converted to a tagged error result. -/
theorem c3_markdown_process_file_raises :
    (markdown_helper.process_file false {} none {} (some "note.md")
        (some "hello")).1 =
      .error "NameError: rule_trigger_stats is not defined" := by rfl

def c2_input : String := "```\n# h\nx\n```\n"

def c2_block : String := "```\n# h\nx\n```"

set_option maxRecDepth 100000 in
/-- C2 (code bug).  The input holds exactly one fenced code block, whose
text is the whole fence; after the Docs helper's full
preprocess+optimize+postprocess pipeline (default configuration) the
postprocess header-spacing rewrite inserts a blank line inside the restored
block, so the exact block text no longer occurs in the output. -/
theorem c2_docs_pipeline_mangles_code_block :
    (reFindIter docs_helper.DOC_CODE_BLOCK_PATTERN.1
        docs_helper.DOC_CODE_BLOCK_PATTERN.2 c2_input.data).map
      (fun m => String.mk m.matched) = [c2_block] ∧
    String.mk (docs_helper.docsPipeline {} {} c2_input.data).1 =
      "```\n# h\n\nx\n```" ∧
    containsSub c2_block.data
      (docs_helper.docsPipeline {} {} c2_input.data).1 = false := by
  exact ⟨by rfl, by rfl, by rfl⟩

/-- C7.  The Notion optimize stage on the exact properties block of the
scenario: the block becomes the stated YAML frontmatter (`Title` and `Tags`
mapped through the fixed lookup table, the bracketed list emitted as a YAML
sequence), the per-call stats record `Notion Properties = 1`, and the
helper counter `properties_converted` is incremented. -/
theorem c7_notion_properties_scenario :
    notion_helper.optimize_content {} {}
        "Properties:\nTitle: Hello\nTags: [a, b]\n".data =
      (("---\ntitle: Hello\ntags:\n  - a\n  - b\n---\n\n".data,
        [("Notion Properties", .int 1)]),
       { properties_converted := 1 }) := by rfl

def c4_path : String :=
  "x " ++ String.mk (List.replicate 32 'a') ++ " " ++
    String.mk (List.replicate 32 'b')

set_option maxRecDepth 100000 in
/-- C4, counterexample.  On a segment carrying two ID-like suffixes
(`"x <32 a's> <32 b's>"`), one application of `notion_clean_path` strips
only the trailing ID - the lazy group captures `"x <32 a's>"` - and a
second application strips again, so `clean(clean(p)) ≠ clean(p)`; the
memoised `NotionHelper.clean_file_path` behaves the same, because the cache
is keyed by the original path and the second call presents the cleaned
path as a fresh key. -/
theorem c4_clean_path_not_idempotent :
    notion_helpers.notionCleanPathS (notion_helpers.notionCleanPathS c4_path) ≠
      notion_helpers.notionCleanPathS c4_path ∧
    ((notion_helper.clean_file_path
        (notion_helper.clean_file_path {} c4_path.data).2
        (notion_helper.clean_file_path {} c4_path.data).1).1 ≠
      (notion_helper.clean_file_path {} c4_path.data).1) := by
  exact ⟨by decide, by decide⟩

/-- C8, counterexample.  The Code helper's postprocess leaves a run of
three blank lines untouched (only normalising the trailing newline), so the
output is not the collapse the claim describes; and the Notion helper's
postprocess collapses a run of exactly two blank lines, which the claim
says is left unchanged. -/
theorem c8_code_postprocess_keeps_blank_runs :
    String.mk (code_helper.postprocess_content "a\n\n\n\nb".data) =
      "a\n\n\n\nb\n" ∧
    String.mk (code_helper.postprocess_content "a\n\n\n\nb".data) ≠
      "a\n\nb\n" ∧
    String.mk (notion_helper.postprocess_content "a\n\n\nb".data) = "a\n\nb" := by
  exact ⟨by rfl, by decide, by rfl⟩

/-- C5, counterexample.  `EmailHelper.detect_content_type` with a `None`
file path raises `AttributeError` at `file_path.lower()` instead of
returning a confidence. -/
theorem c5_email_detect_none_path_raises :
    (email_helper.detect_content_type {} none none none).1 =
      .error "AttributeError: NoneType object has no attribute lower" := by rfl

/-- C10.  The base `process_file` on empty provided content returns exactly
`("", {"empty_file": 1})`, and on a `None` file path returns `""` with the
error-tagged stats; in both cases the result is the same for every choice
of the three pipeline stages (they are never invoked) and the helper's
accumulated statistics are returned unchanged. -/
theorem c10_base_empty_and_none_shortcuts :
    (∀ (P O : Type) (stages : base_helper.Stages P O) (fs : Option String)
        (st : base_helper.HelperState) (fp : String),
      base_helper.process_file stages fs st (some fp) (some "") =
        (("", [("empty_file", .int 1)]), st)) ∧
    (∀ (P O : Type) (stages : base_helper.Stages P O) (fs : Option String)
        (st : base_helper.HelperState) (content : Option String),
      base_helper.process_file stages fs st none content =
        (("", [("error", .str "Invalid file path (None)")]), st)) := by
  constructor
  · intro P O stages fs st fp
    cases fs <;> rfl
  · intro P O stages fs st content
    rfl

/-- C1, amended.  The base-class `process_file` - the implementation used
by the Notion, Email, Code and Docs helpers - satisfies the size-safety
invariant: on provided content the returned text is never longer than the
content unless it is exactly the original content with the revert recorded
in the returned stats (`reverted_to_original = True` and a `size_increased`
entry present). -/
theorem c1_amended_base_size_safety
    (P O : Type) (stages : base_helper.Stages P O) (fs : Option String)
    (st : base_helper.HelperState) (fp : String) (c : String) :
    (base_helper.process_file stages fs st (some fp) (some c)).1.1.length ≤
        c.length ∨
    ((base_helper.process_file stages fs st (some fp) (some c)).1.1 = c ∧
      pdGet (base_helper.process_file stages fs st (some fp) (some c)).1.2
        "reverted_to_original" = some (.bool true) ∧
      (pdGet (base_helper.process_file stages fs st (some fp) (some c)).1.2
        "size_increased").isSome = true) := by
  have hred : base_helper.process_file stages fs st (some fp) (some c) =
      (if c = "" then (("", [("empty_file", .int 1)]), st)
       else
        match stages.preprocess_content c st with
        | (.error e, st1) =>
          (("", [("error", .str ("Processing error: " ++ e))]), st1)
        | (.ok p, st1) =>
          match stages.optimize_content p st1 with
          | (.error e, st2) =>
            (("", [("error", .str ("Processing error: " ++ e))]), st2)
          | (.ok (o, opt_stats), st2) =>
            match stages.postprocess_content o st2 with
            | (.error e, st3) =>
              (("", [("error", .str ("Processing error: " ++ e))]), st3)
            | (.ok finO, st3) =>
              let st4 := { st3 with
                files_processed := st3.files_processed + 1 }
              match pdSumValues opt_stats with
              | .error e =>
                (("", [("error", .str ("Processing error: " ++ e))]), st4)
              | .ok n =>
                let st5 := { st4 with
                  optimizations_applied := st4.optimizations_applied + n }
                let finStats : String × PyDict :=
                  match finO with
                  | none =>
                    ("", pdSet opt_stats "error"
                      (.str "Postprocessing returned None content"))
                  | some f => (f, opt_stats)
                let fin := finStats.1
                let opt_stats2 := finStats.2
                if fin.length > c.length then
                  ((c, pdSet (pdSet opt_stats2 "size_increased"
                      (.int ((fin.length : Int) - (c.length : Int))))
                      "reverted_to_original" (.bool true)), st5)
                else ((fin, opt_stats2), st5)) := by
    cases fs <;> rfl
  rw [hred]
  split
  · left
    simp
  · split
    · left
      simp
    · split
      · left
        simp
      · split
        · left
          simp
        · split
          · left
            simp
          · dsimp only
            split
            · right
              refine ⟨rfl, ?_, ?_⟩
              · exact pdGet_pdSet_self _ _ _
              · rw [pdGet_pdSet_other _ _ _ _ (by decide),
                  pdGet_pdSet_self]
                rfl
            · left
              exact Nat.le_of_not_lt (by assumption)

theorem notion_detect_stats (st : notion_helper.NotionStats) (fs : Option String)
    (fp : Option String) (c : Option String) :
    (notion_helper.detect_content_type st fs fp c).2 = st := by
  unfold notion_helper.detect_content_type
  dsimp only
  repeat' split
  all_goals rfl

theorem email_detect_stats (st : email_helper.EmailStats) (fs : Option String)
    (fp : Option String) (c : Option String) :
    (email_helper.detect_content_type st fs fp c).2 = st := by
  unfold email_helper.detect_content_type
  dsimp only
  repeat' split
  all_goals rfl

theorem code_detect_stats (st : code_helper.CodeStats) (pa : Bool)
    (pg : Option Bool) (fs : Option String) (fp : Option String)
    (c : Option String) :
    (code_helper.detect_content_type st pa pg fs fp c).2 = st := by
  unfold code_helper.detect_content_type
  dsimp only
  repeat' split
  all_goals rfl

theorem docs_detect_stats (st : docs_helper.DocsStats) (fs : Option String)
    (fp : Option String) (c : Option String) :
    (docs_helper.detect_content_type st fs fp c).2 = st := by
  unfold docs_helper.detect_content_type
  dsimp only
  repeat' split
  all_goals rfl

theorem markdown_detect_stats (st : markdown_helper.MdStats)
    (fp : Option String) (c : Option String) :
    (markdown_helper.detect_content_type st fp c).2 = st := by
  unfold markdown_helper.detect_content_type
  cases fp with
  | none => rfl
  | some f =>
    cases c with
    | none =>
      simp only [apply_ite Prod.snd, ite_self]
    | some cc =>
      simp only [apply_ite Prod.snd, ite_self]

theorem uo_detect_go_stats (dm : String) (pa : Bool) (pg : Option Bool)
    (fp : String) (hs : unified_optimizer.HelperStates)
    (uo : unified_optimizer.UOStats) (content rs : Option String) :
    (unified_optimizer.detect_content_type.go dm pa pg fp hs uo content rs).2.1 =
      hs := by
  unfold unified_optimizer.detect_content_type.go
  dsimp only
  split <;>
    simp only [notion_detect_stats, email_detect_stats, code_detect_stats,
      docs_detect_stats, markdown_detect_stats]

/-- C9.  Detection is side-effect-free on helper statistics: each helper's
`detect_content_type` returns its statistics unchanged for every input, and
the dispatcher's `detect_content_type`, which probes all five helpers,
leaves all five helper statistics exactly as they were. -/
theorem c9_detection_preserves_helper_stats :
    (∀ (st : notion_helper.NotionStats) fs fp c,
      (notion_helper.detect_content_type st fs fp c).2 = st) ∧
    (∀ (st : email_helper.EmailStats) fs fp c,
      (email_helper.detect_content_type st fs fp c).2 = st) ∧
    (∀ (st : code_helper.CodeStats) pa pg fs fp c,
      (code_helper.detect_content_type st pa pg fs fp c).2 = st) ∧
    (∀ (st : docs_helper.DocsStats) fs fp c,
      (docs_helper.detect_content_type st fs fp c).2 = st) ∧
    (∀ (st : markdown_helper.MdStats) fp c,
      (markdown_helper.detect_content_type st fp c).2 = st) ∧
    (∀ dm pa pg (hs : unified_optimizer.HelperStates) uo isfile rs fp c,
      (unified_optimizer.detect_content_type dm pa pg hs uo isfile rs fp c).2.1 =
        hs) := by
  refine ⟨notion_detect_stats, email_detect_stats, code_detect_stats,
    docs_detect_stats, markdown_detect_stats, ?_⟩
  intro dm pa pg hs uo isfile rs fp c
  unfold unified_optimizer.detect_content_type
  repeat' split
  all_goals first
    | rfl
    | exact uo_detect_go_stats dm pa pg fp hs uo _ _

/-- C6.  Dispatcher-level size safety net: whenever `optimize_file` is
handed a valid path and non-empty content, and the selected helper returns
optimized text whose length exceeds the original length by more than 5%
(the `len(optimized) > original_length * 1.05` check), the dispatcher
discards the optimized text and returns the original content, sets
`reverted_to_original = True` and `size_increased = len(optimized) -
original_length` in the returned stats, and increments its run-level
`reverted_optimizations` counter by one. -/
theorem c6_dispatcher_size_revert
    (hp : String → String → Option String → Except PyErr (Option String × PyDict))
    (det : String × ℚ) (el : ℚ) (isf : Bool) (rf : Option String)
    (uo : unified_optimizer.UOStats) (fp c t : String) (stats : PyDict)
    (fm : Option String)
    (hc : ¬ c = "")
    (hproc : hp (match fm with | some m => m | none => det.1) fp (some c) =
      .ok (some t, stats))
    (hsize : (c.length : ℚ) * 1.05 < (t.length : ℚ)) :
    (unified_optimizer.optimize_file hp det el true isf rf uo fp (some c)
        fm).1.1 = some c ∧
    pdGet (unified_optimizer.optimize_file hp det el true isf rf uo fp (some c)
        fm).1.2 "reverted_to_original" = some (.bool true) ∧
    pdGet (unified_optimizer.optimize_file hp det el true isf rf uo fp (some c)
        fm).1.2 "size_increased" =
      some (.int ((t.length : Int) - (c.length : Int))) ∧
    (unified_optimizer.optimize_file hp det el true isf rf uo fp (some c)
        fm).2.reverted_optimizations = uo.reverted_optimizations + 1 := by
  have hred : unified_optimizer.optimize_file hp det el true isf rf uo fp
      (some c) fm = unified_optimizer.optimize_file.go hp det el fp fm uo
      (some c) := by
    cases isf <;> rfl
  rw [hred]
  unfold unified_optimizer.optimize_file.go
  cases fm with
  | none =>
    dsimp only
    rw [if_neg hc, hproc]
    dsimp only
    rw [if_pos (show ((c.length : Nat) : ℚ) * 1.05 < ((t.length : Nat) : ℚ)
      from hsize)]
    refine ⟨rfl, pdGet_pdSet_self _ _ _, ?_, ?_⟩
    · rw [pdGet_pdSet_other _ _ _ _ (by decide), pdGet_pdSet_self]
    · dsimp only
      split <;> rfl
  | some m =>
    dsimp only
    rw [if_neg hc, hproc]
    dsimp only
    rw [if_pos (show ((c.length : Nat) : ℚ) * 1.05 < ((t.length : Nat) : ℚ)
      from hsize)]
    refine ⟨rfl, pdGet_pdSet_self _ _ _, ?_, ?_⟩
    · rw [pdGet_pdSet_other _ _ _ _ (by decide), pdGet_pdSet_self]
    · dsimp only
      split <;> rfl

theorem c6_dispatcher_size_revert_witness :
    (unified_optimizer.optimize_file
        (fun _ _ _ => .ok (some "aaaaaaaaaa", ([] : PyDict)))
        ("docs", 0) 0 true true none ({} : unified_optimizer.UOStats)
        "f.md" (some "aa") (some "docs")).1.1 = some "aa" ∧
    pdGet (unified_optimizer.optimize_file
        (fun _ _ _ => .ok (some "aaaaaaaaaa", ([] : PyDict)))
        ("docs", 0) 0 true true none ({} : unified_optimizer.UOStats)
        "f.md" (some "aa") (some "docs")).1.2 "reverted_to_original" =
      some (.bool true) ∧
    pdGet (unified_optimizer.optimize_file
        (fun _ _ _ => .ok (some "aaaaaaaaaa", ([] : PyDict)))
        ("docs", 0) 0 true true none ({} : unified_optimizer.UOStats)
        "f.md" (some "aa") (some "docs")).1.2 "size_increased" =
      some (.int ((("aaaaaaaaaa".length : Int)) - (("aa".length : Int)))) ∧
    (unified_optimizer.optimize_file
        (fun _ _ _ => .ok (some "aaaaaaaaaa", ([] : PyDict)))
        ("docs", 0) 0 true true none ({} : unified_optimizer.UOStats)
        "f.md" (some "aa") (some "docs")).2.reverted_optimizations =
      ({} : unified_optimizer.UOStats).reverted_optimizations + 1 :=
  c6_dispatcher_size_revert
    (fun _ _ _ => .ok (some "aaaaaaaaaa", ([] : PyDict)))
    ("docs", 0) 0 true none ({} : unified_optimizer.UOStats)
    "f.md" "aa" "aaaaaaaaaa" ([] : PyDict) (some "docs")
    (by decide) rfl
    (by
      show ((2 : Nat) : ℚ) * 1.05 < ((10 : Nat) : ℚ)
      push_cast
      norm_num)

set_option maxRecDepth 100000 in
/-- C8 (amended).  Newline normalisation in `postprocess_content`: the
Notion, Email, Markdown (when preprocessed data is present) and Docs
helpers collapse every run of three or more consecutive newlines - that
is, every run of two or more blank lines, including runs of exactly two -
down to a single blank line (`\n{3,}` -> `\n\n`), so no run of three or
more newlines survives; Markdown without preprocessed data returns the
content unchanged; and the Code helper does not collapse blank lines at
all but guarantees exactly one trailing newline on non-empty input (zero
on empty input).  The Docs clause is witnessed on `"a\n\n\n\nb"`, which its
extra header-spacing pass leaves alone. -/
theorem c8_amended_postprocess_normalization :
    (∀ s, nlRunsLE2 0 (notion_helper.postprocess_content s) = true) ∧
    (∀ s, nlRunsLE2 0 (email_helper.postprocess_content s) = true) ∧
    (∀ (st : markdown_helper.MdStats) (pre : markdown_helper.MdPre) s,
      nlRunsLE2 0 (markdown_helper.postprocess_content st (some pre) s).1 =
        true) ∧
    (∀ (st : markdown_helper.MdStats) s,
      (markdown_helper.postprocess_content st none s).1 = s) ∧
    (∀ s, trailingNL (code_helper.postprocess_content s) =
      if s.isEmpty then 0 else 1) ∧
    docs_helper.postprocess_content "a\n\n\n\nb".data = "a\n\nb".data := by
  refine ⟨?_, ?_, ?_, ?_, ?_, ?_⟩
  · intro s
    unfold notion_helper.postprocess_content
    by_cases h : s.isEmpty
    · rw [if_pos h]
      cases s with
      | nil => rfl
      | cons a t => simp [List.isEmpty] at h
    · rw [if_neg h]
      exact collapseNewlines_runs _
  · intro s
    unfold email_helper.postprocess_content
    by_cases h : s.isEmpty
    · rw [if_pos h]
      cases s with
      | nil => rfl
      | cons a t => simp [List.isEmpty] at h
    · rw [if_neg h]
      exact collapseNewlines_runs _
  · intro st pre s
    unfold markdown_helper.postprocess_content
    dsimp only
    exact collapseNewlines_runs _
  · intro st s
    rfl
  · intro s
    unfold code_helper.postprocess_content
    by_cases h : s.isEmpty
    · rw [if_pos h, if_pos h]
      cases s with
      | nil => rfl
      | cons a t => simp [List.isEmpty] at h
    · rw [if_neg h, if_neg h]
      exact trailingNL_append_newline _
  · rfl

theorem map_fixed {A : Type} (l : List A) (f : A → A)
    (h : ∀ a ∈ l, f a = a) : l.map f = l := by
  induction l with
  | nil => rfl
  | cons a t ih =>
    rw [List.map_cons, h a (by simp), ih (fun b hb => h b (by simp [hb]))]

theorem foldl_invariant {A B C : Type} (f : A → B → A) (g : A → C)
    (h : ∀ a b, g (f a b) = g a) : ∀ (l : List B) (a : A),
      g (l.foldl f a) = g a := by
  intro l
  induction l with
  | nil => intro a; rfl
  | cons b t ih =>
    intro a
    rw [List.foldl_cons, ih, h]

/-- The fold inside `clean_file_path` touches only `id_map` and `stats`,
never the memo table `cleaned_paths`. -/
theorem clean_file_path_uncached (st : notion_helper.NotionPathState)
    (p : List Char)
    (hfind : st.cleaned_paths.find? (fun e => e.1 = p) = none) :
    (notion_helper.clean_file_path st p).2.cleaned_paths =
      st.cleaned_paths ++ [(p, (notion_helper.clean_file_path st p).1)] := by
  unfold notion_helper.clean_file_path
  rw [hfind]
  dsimp only
  congr 1
  refine foldl_invariant _
    (fun (x : List (List Char) × notion_helper.NotionPathState) =>
      x.2.cleaned_paths) ?_ _ _
  intro a b
  dsimp only
  repeat' split
  all_goals rfl

/-- A memo hit returns the cached value without touching the state. -/
theorem clean_file_path_cached (st : notion_helper.NotionPathState)
    (p : List Char) (en : List Char × List Char)
    (h : st.cleaned_paths.find? (fun e => e.1 = p) = some en) :
    notion_helper.clean_file_path st p = (en.2, st) := by
  unfold notion_helper.clean_file_path
  rw [h]

/-- C4 (amended).  Path cleaning is a no-op on ID-free paths, hence
idempotent whenever the first pass strips every Notion-ID suffix (true for
paths whose segments carry at most one ID suffix; a segment carrying two
ID-like suffixes still has one after the first pass, the original claim's
counterexample); and the helper's `clean_file_path` is idempotent in the
memoised sense the spec asks for: cleaning the same original path a second
time hits the `cleaned_paths` cache and returns the identical result. -/
theorem c4_amended_clean_path_idempotent :
    (∀ p : List Char,
      (pySplit '/' p).all
          (fun part => (notion_helpers.extract_notion_id part).2.isNone) =
        true →
      notion_helpers.notion_clean_path p = p) ∧
    (∀ p : List Char,
      (pySplit '/' (notion_helpers.notion_clean_path p)).all
          (fun part => (notion_helpers.extract_notion_id part).2.isNone) =
        true →
      notion_helpers.notion_clean_path (notion_helpers.notion_clean_path p) =
        notion_helpers.notion_clean_path p) ∧
    (∀ (st : notion_helper.NotionPathState) (p : List Char),
      (notion_helper.clean_file_path
          (notion_helper.clean_file_path st p).2 p).1 =
        (notion_helper.clean_file_path st p).1) := by
  have noop : ∀ p : List Char,
      (pySplit '/' p).all
          (fun part => (notion_helpers.extract_notion_id part).2.isNone) =
        true →
      notion_helpers.notion_clean_path p = p := by
    intro p h
    unfold notion_helpers.notion_clean_path
    have hm : ∀ part ∈ pySplit '/' p,
        (notion_helpers.extract_notion_id part).1 = part := by
      intro part hp
      have h2 := List.all_eq_true.mp h part hp
      unfold notion_helpers.extract_notion_id at h2 ⊢
      cases hsr : reSearch notion_helpers.NOTION_ID_PATTERN.1
          notion_helpers.NOTION_ID_PATTERN.2 part with
      | some m => rw [hsr] at h2; simp at h2
      | none => rfl
    rw [map_fixed _ _ hm, pyJoin_pySplit]
  refine ⟨noop, fun p h => noop _ h, ?_⟩
  intro st p
  cases hfind : st.cleaned_paths.find? (fun e => e.1 = p) with
  | some e =>
    have h1 := clean_file_path_cached st p e hfind
    rw [h1]
    show (notion_helper.clean_file_path st p).1 = e.2
    rw [h1]
  | none =>
    have hkey := clean_file_path_uncached st p hfind
    have hfind2 : (notion_helper.clean_file_path st p).2.cleaned_paths.find?
        (fun e => e.1 = p) =
        some (p, (notion_helper.clean_file_path st p).1) := by
      rw [hkey, List.find?_append, hfind,
        List.find?_cons_of_pos _ (by simp)]
      rfl
    have h2 := clean_file_path_cached _ p _ hfind2
    rw [h2]

set_option maxRecDepth 100000 in
theorem c4_amended_clean_path_idempotent_witness :
    ((pySplit '/' "docs/readme.md".data).all
        (fun part => (notion_helpers.extract_notion_id part).2.isNone) =
      true) ∧
    notion_helpers.notion_clean_path "docs/readme.md".data =
      "docs/readme.md".data ∧
    notion_helpers.notion_clean_path (notion_helpers.notion_clean_path
        "docs/readme.md".data) =
      notion_helpers.notion_clean_path "docs/readme.md".data :=
  ⟨by decide,
   c4_amended_clean_path_idempotent.1 ("docs/readme.md".data) (by decide),
   c4_amended_clean_path_idempotent.2.1 ("docs/readme.md".data) (by decide)⟩

theorem okBounds_ite {c : Prop} [Decidable c] {x y : Except PyErr ℚ}
    (hx : ∃ q, x = .ok q ∧ 0 ≤ q ∧ q ≤ 1)
    (hy : ∃ q, y = .ok q ∧ 0 ≤ q ∧ q ≤ 1) :
    ∃ q, (if c then x else y) = .ok q ∧ 0 ≤ q ∧ q ≤ 1 := by
  by_cases h : c
  · rwa [if_pos h]
  · rwa [if_neg h]

set_option maxHeartbeats 2000000 in
/-- C5 (amended).  Detection confidence bounds for defined inputs: given an
actual path string (not `None`), every helper's `detect_content_type`
returns `0.0 <= confidence <= 1.0` without raising, for every combination
of content argument and readable/unreadable file sample; the Markdown
helper tolerates even a `None` path.  For a missing or unreadable file
(no content and no readable sample), when the extension/filename
early-returns do not fire, the Notion, Email, Code and Docs helpers
return 0.0, while the Markdown helper returns 0.1 - not 0.0. -/
theorem c5_amended_detect_bounds :
    (∀ (st : notion_helper.NotionStats) fs (fp : String) c,
      ∃ q, (notion_helper.detect_content_type st fs (some fp) c).1 = .ok q ∧
        0 ≤ q ∧ q ≤ 1) ∧
    (∀ (st : email_helper.EmailStats) fs (fp : String) c,
      ∃ q, (email_helper.detect_content_type st fs (some fp) c).1 = .ok q ∧
        0 ≤ q ∧ q ≤ 1) ∧
    (∀ (st : code_helper.CodeStats) pa pg fs (fp : String) c,
      ∃ q, (code_helper.detect_content_type st pa pg fs (some fp) c).1 =
          .ok q ∧ 0 ≤ q ∧ q ≤ 1) ∧
    (∀ (st : docs_helper.DocsStats) fs (fp : String) c,
      ∃ q, (docs_helper.detect_content_type st fs (some fp) c).1 = .ok q ∧
        0 ≤ q ∧ q ≤ 1) ∧
    (∀ (st : markdown_helper.MdStats) (fp : Option String) c,
      ∃ q, (markdown_helper.detect_content_type st fp c).1 = .ok q ∧
        0 ≤ q ∧ q ≤ 1) ∧
    (∀ (st : notion_helper.NotionStats) (fp : String),
      (notion_helper.extract_notion_id
          (notion_helper.osBasename fp.data)).2 = none →
      (notion_helper.detect_content_type st none (some fp) none).1 = .ok 0) ∧
    (∀ (st : email_helper.EmailStats) (fp : String),
      pyEndsWith (pyLower fp.data) ['.', 'e', 'm', 'l'] = false →
      pyEndsWith (pyLower fp.data) ['.', 'm', 's', 'g'] = false →
      (email_helper.detect_content_type st none (some fp) none).1 = .ok 0) ∧
    (∀ (st : code_helper.CodeStats) pa pg (fp : String),
      code_helper.EXTENSION_TO_LANGUAGE.any
          (fun e => e.1.data = code_helper.pathSuffix (pyLower fp.data)) =
        false →
      (code_helper.detect_content_type st pa pg none (some fp) none).1 =
        .ok 0) ∧
    (∀ (st : docs_helper.DocsStats) (fp : String),
      ([".md", ".rst", ".txt", ".adoc", ".asciidoc"].any
          (fun e => e.data = code_helper.pathSuffix (pyLower fp.data)) &&
        docs_helper.docBasenames.any
          (fun b => b.data = pyLower (docs_helper.pathStem fp.data))) =
        false →
      (docs_helper.detect_content_type st none (some fp) none).1 = .ok 0) ∧
    (∀ (st : markdown_helper.MdStats) (fp : String),
      ¬ fp = "" →
      pyEndsWith (pyLower fp.data) ['.', 'm', 'd'] = false →
      pyEndsWith (pyLower fp.data) ['.', 'm', 'd', 'c'] = false →
      pyEndsWith (pyLower fp.data)
        ['.', 'c', 'u', 'r', 's', 'o', 'r', 'r', 'u', 'l', 'e', 's'] = false →
      pyEndsWith (pyLower fp.data)
        ['.', 'm', 'a', 'r', 'k', 'd', 'o', 'w', 'n'] = false →
      (markdown_helper.detect_content_type st (some fp) none).1 = .ok 0.1) := by
  refine ⟨?_, ?_, ?_, ?_, ?_, ?_, ?_, ?_, ?_, ?_⟩
  · intro st fs fp c
    unfold notion_helper.detect_content_type
    dsimp only
    repeat' split
    all_goals exact ⟨_, rfl, by norm_num [min_def], by norm_num [min_def]⟩
  · intro st fs fp c
    unfold email_helper.detect_content_type
    dsimp only
    repeat' split
    all_goals exact ⟨_, rfl, by norm_num [min_def], by norm_num [min_def]⟩
  · intro st pa pg fs fp c
    unfold code_helper.detect_content_type
    dsimp only
    repeat' split
    all_goals exact ⟨_, rfl, by norm_num [min_def], by norm_num [min_def]⟩
  · intro st fs fp c
    unfold docs_helper.detect_content_type
    dsimp only
    repeat' split
    all_goals exact ⟨_, rfl, by norm_num [min_def], by norm_num [min_def]⟩
  · intro st fp c
    unfold markdown_helper.detect_content_type
    cases fp with
    | none => exact ⟨0, rfl, le_refl 0, by norm_num⟩
    | some f =>
      cases c with
      | none =>
        dsimp only
        simp only [apply_ite Prod.fst]
        repeat' apply okBounds_ite
        all_goals exact ⟨_, rfl, by norm_num, by norm_num⟩
      | some cc =>
        dsimp only
        simp only [apply_ite Prod.fst]
        repeat' apply okBounds_ite
        all_goals exact ⟨_, rfl, by norm_num, by norm_num⟩
  · intro st fp h
    unfold notion_helper.detect_content_type
    dsimp only
    rcases hE : notion_helper.extract_notion_id
      (notion_helper.osBasename fp.data) with ⟨cn, nid⟩
    rw [hE] at h
    simp only at h
    subst h
    rw [if_neg (by simp)]
    rfl
  · intro st fp ha hb
    unfold email_helper.detect_content_type
    dsimp only
    rw [ha, hb, if_neg (by simp)]
    rfl
  · intro st pa pg fp h
    unfold code_helper.detect_content_type
    dsimp only
    rw [h, if_neg (by simp)]
    rfl
  · intro st fp h
    unfold docs_helper.detect_content_type
    dsimp only
    rw [h, if_neg (by simp)]
    rfl
  · intro st fp h1 h2 h3 h4 h5
    unfold markdown_helper.detect_content_type
    dsimp only
    rw [if_neg h1, h2, h3, h4, h5]
    simp

set_option maxRecDepth 100000 in
theorem c5_amended_detect_bounds_witness :
    (notion_helper.detect_content_type ({} : notion_helper.NotionStats) none
        (some "report.pdf") none).1 = .ok 0 ∧
    (email_helper.detect_content_type ({} : email_helper.EmailStats) none
        (some "report.pdf") none).1 = .ok 0 ∧
    (code_helper.detect_content_type ({} : code_helper.CodeStats) false none
        none (some "report.pdf") none).1 = .ok 0 ∧
    (docs_helper.detect_content_type ({} : docs_helper.DocsStats) none
        (some "report.pdf") none).1 = .ok 0 ∧
    (markdown_helper.detect_content_type ({} : markdown_helper.MdStats)
        (some "report.pdf") none).1 = .ok 0.1 :=
  ⟨c5_amended_detect_bounds.2.2.2.2.2.1 _ "report.pdf" (by decide),
   c5_amended_detect_bounds.2.2.2.2.2.2.1 _ "report.pdf" (by decide)
     (by decide),
   c5_amended_detect_bounds.2.2.2.2.2.2.2.1 _ false none "report.pdf"
     (by decide),
   c5_amended_detect_bounds.2.2.2.2.2.2.2.2.1 _ "report.pdf" (by decide),
   c5_amended_detect_bounds.2.2.2.2.2.2.2.2.2 _ "report.pdf" (by decide)
     (by decide) (by decide) (by decide) (by decide)⟩
